import Mathlib

/-!
Verification of the TinRed conversational invoicing assistant
(`backend/app` of the repository) against its natural-language
specification.  The Python modules `models/schemas.py`,
`agents/data_extractor.py`, `agents/intent_classifier.py`,
`agents/emission_agent.py`, `agents/orchestrator.py`,
`services/tinred_client.py` and `services/session_manager.py` are
shallowly embedded below: mutable Pydantic models become Lean
structures, mutating methods become state-passing functions, network
calls are passed in as explicit `ApiResult` oracles, and every regular
expression of the source is re-implemented as an executable scanner
over `List Char` with Python `re` semantics (word boundaries,
leftmost non-overlapping matches, greedy / lazy quantifiers) on the
fragment of the pattern language the source uses.
-/

namespace TinRed

/-! ### Character classes and Python-style string primitives

Python's `str.lower` / `str.upper` and the Unicode-aware `\w`, `\s`,
`\d` of `re` restricted to the alphabet the source's patterns and the
conversations use (ASCII plus the accented Spanish letters). -/

def lowerChar (c : Char) : Char :=
  if 'A' ≤ c ∧ c ≤ 'Z' then Char.ofNat (c.toNat + 32)
  else if c = 'Á' then 'á'
  else if c = 'É' then 'é'
  else if c = 'Í' then 'í'
  else if c = 'Ó' then 'ó'
  else if c = 'Ú' then 'ú'
  else if c = 'Ñ' then 'ñ'
  else if c = 'Ü' then 'ü'
  else c

def upperChar (c : Char) : Char :=
  if 'a' ≤ c ∧ c ≤ 'z' then Char.ofNat (c.toNat - 32)
  else if c = 'á' then 'Á'
  else if c = 'é' then 'É'
  else if c = 'í' then 'Í'
  else if c = 'ó' then 'Ó'
  else if c = 'ú' then 'Ú'
  else if c = 'ñ' then 'Ñ'
  else if c = 'ü' then 'Ü'
  else c

def pyLower (s : String) : String := String.mk (s.toList.map lowerChar)

def pyUpper (s : String) : String := String.mk (s.toList.map upperChar)

def isDigitC (c : Char) : Bool := '0' ≤ c ∧ c ≤ '9'

def isWsC (c : Char) : Bool := c = ' ' ∨ c = '\t' ∨ c = '\n' ∨ c = '\r'

def isAccented (c : Char) : Bool :=
  c = 'á' ∨ c = 'é' ∨ c = 'í' ∨ c = 'ó' ∨ c = 'ú' ∨ c = 'ñ' ∨ c = 'ü' ∨
  c = 'Á' ∨ c = 'É' ∨ c = 'Í' ∨ c = 'Ó' ∨ c = 'Ú' ∨ c = 'Ñ' ∨ c = 'Ü'

/-- Python `\w` (word character) on the alphabet in use. -/
def isWordC (c : Char) : Bool :=
  ('a' ≤ c ∧ c ≤ 'z') ∨ ('A' ≤ c ∧ c ≤ 'Z') ∨ isDigitC c ∨ c = '_' ∨ isAccented c

/-- Lower-case letters of the source's `[a-záéíóúñ]` character class. -/
def isDescC (c : Char) : Bool :=
  ('a' ≤ c ∧ c ≤ 'z') ∨ c = 'á' ∨ c = 'é' ∨ c = 'í' ∨ c = 'ó' ∨ c = 'ú' ∨ c = 'ñ'

/-- The source's `[a-záéíóúñs\s]` class (letters or whitespace). -/
def isDescWsC (c : Char) : Bool := isDescC c ∨ isWsC c

def digitVal (c : Char) : Nat := c.toNat - '0'.toNat

def digitsToNat (cs : List Char) : Nat := cs.foldl (fun a c => a * 10 + digitVal c) 0

/-- `litAt p cs`, moved before its uses: consume the literal `p` at the
head of `cs`. -/
def litAt : List Char → List Char → Option (List Char)
  | [], cs => some cs
  | _, [] => none
  | p :: ps, c :: cs => if p = c then litAt ps cs else none

def containsSubGo (pat : List Char) : List Char → Bool
  | [] => pat.isEmpty
  | cs@(_ :: tl) => (litAt pat cs).isSome || containsSubGo pat tl

/-- Substring containment, Python's `pat in s`. -/
def containsSub (s pat : String) : Bool :=
  containsSubGo pat.toList s.toList

/-- Python `str.strip`. -/
def pyStrip (s : String) : String :=
  String.mk ((s.toList.dropWhile isWsC).reverse.dropWhile isWsC |>.reverse)

/-- Python `str.replace` (leftmost non-overlapping occurrences).  The
second argument counts characters of a just-matched occurrence still to
be skipped, so the recursion is structural in the text. -/
def replaceGo (pat rep : List Char) : List Char → Nat → List Char
  | [], _ => []
  | _ :: tl, k + 1 => replaceGo pat rep tl k
  | cs@(c :: tl), 0 =>
    match litAt pat cs with
    | some _ => rep ++ replaceGo pat rep tl (pat.length - 1)
    | none => c :: replaceGo pat rep tl 0

def pyReplace (s pat rep : String) : String :=
  if pat.isEmpty then s
  else String.mk (replaceGo pat.toList rep.toList s.toList 0)

/-! ### Word-boundary search

`searchWordAt w cs prevOk` holds when the literal phrase `w` matches at
the head of `cs` with a `\b` satisfied on the left (`prevOk`) and on the
right (next char absent or not a word char); `searchWord` scans all
positions left to right, as `re.search(r'\b<w>\b', text)` does. -/

def boundaryAfter : List Char → Bool
  | [] => true
  | c :: _ => !isWordC c

def searchWordGo (w : List Char) : List Char → Bool → Bool
  | [], prevOk => prevOk && w.isEmpty
  | c :: cs, prevOk =>
    (prevOk && (match litAt w (c :: cs) with
                | some rest => boundaryAfter rest
                | none => false))
    || searchWordGo w cs (!isWordC c)

/-- `re.search(r'\b<w>\b', text)` for a literal word or phrase `w`. -/
def searchWord (text w : String) : Bool :=
  searchWordGo w.toList text.toList true

/-- `re.search` of a `\b(w1|w2|…)\b` alternation. -/
def searchWords (text : String) (ws : List String) : Bool :=
  ws.any (searchWord text)

/-- Anchored `^(w1|…)[\s\.\!\,]*$` pattern with `re.IGNORECASE`
(used by the AFFIRMATIVE / NEGATIVE / GREETING / EMISSION lists). -/
def anchoredWords (text : String) (ws : List String) : Bool :=
  let t := pyLower text
  ws.any (fun w =>
    match litAt w.toList t.toList with
    | some rest => rest.all (fun c => isWsC c ∨ c = '.' ∨ c = '!' ∨ c = ',')
    | none => false)

/-! ### Numbers: Python `float(...)` and `f"{x:.2f}"` on the values in play

All quantities in the engine are integer strings and all prices are
decimal strings with at most two fractional digits, so `float`
arithmetic on them is exact and `:.2f` formatting is plain decimal
rendering; money is modelled as `ℚ`. -/

def pyFloat (s : String) : Option ℚ :=
  let cs := s.toList
  let intPart := cs.takeWhile isDigitC
  let rest := cs.drop intPart.length
  if intPart.isEmpty then none
  else
    match rest with
    | [] => some (digitsToNat intPart)
    | '.' :: frac =>
      if frac.all isDigitC ∧ ¬ frac.isEmpty then
        some ((digitsToNat intPart : ℚ) +
              (digitsToNat frac : ℚ) / ((10 : ℚ) ^ frac.length))
      else none
    | _ => none

def pad2 (n : Nat) : String :=
  if n < 10 then "0" ++ toString n else toString n

/-- `f"{q:.2f}"` for a non-negative exact-cents rational. -/
def formatFloat2 (q : ℚ) : String :=
  let cents : ℤ := ⌊q * 100 + 1 / 2⌋
  let cents : Nat := cents.toNat
  toString (cents / 100) ++ "." ++ pad2 (cents % 100)

/-! ### Data model (`app/models/schemas.py`) -/

/-- A JSON object, as returned by the issuing service; values are kept
as strings (the only shape the core inspects). -/
abbrev Dict := List (String × String)

/-- Transport outcome of an issuing-service HTTP call: a decoded JSON
payload, or a raised `TinRedAPIError` carrying its message. -/
inductive ApiResult (α : Type) where
  | ok (val : α)
  | err (msg : String)
deriving DecidableEq

/-- Python truthiness of an optional string field. -/
def truthyS : Option String → Bool
  | none => false
  | some s => decide (s ≠ "")

/-- `InvoiceItem` of `schemas.py`; the source field `precio` is named
`price` here. -/
structure InvoiceItem where
  cantidad : String
  descripcion : String
  price : String
deriving DecidableEq

/-- `InvoiceItem.subtotal`: `float(cantidad) * float(precio)`, with the
`except` clause returning `0.0`. -/
def InvoiceItem.subtotal (i : InvoiceItem) : ℚ :=
  match pyFloat i.cantidad, pyFloat i.price with
  | some a, some b => a * b
  | _, _ => 0

/-- `EmissionData` of `schemas.py`. -/
@[ext]
structure EmissionData where
  document_type : Option String := none
  currency : Option String := some "PEN"
  id_type : Option String := none
  id_number : Option String := none
  items : List InvoiceItem := []
  client_validated : Bool := false
  client_name : Option String := none
deriving DecidableEq

/-- A fresh `EmissionData()` (all Pydantic defaults). -/
def EmissionData.init : EmissionData := {}

/-- `EmissionData.get_missing_fields`. -/
def EmissionData.get_missing_fields (e : EmissionData) : List String :=
  (if !truthyS e.document_type then ["tipo_documento"] else []) ++
  (if !truthyS e.id_type || !truthyS e.id_number then ["identificacion_cliente"] else []) ++
  (if e.items.isEmpty then ["productos"] else [])

/-- `EmissionData.is_complete`. -/
def EmissionData.is_complete (e : EmissionData) : Bool :=
  truthyS e.document_type && truthyS e.currency && truthyS e.id_type &&
  truthyS e.id_number && !e.items.isEmpty

/-- `EmissionData.calculate_total`. -/
def EmissionData.calculate_total (e : EmissionData) : ℚ :=
  (e.items.map InvoiceItem.subtotal).sum

/-- `EmissionData.reset`. -/
def EmissionData.reset (_ : EmissionData) : EmissionData := EmissionData.init

/-- `EmissionRecord` of `schemas.py` (the wall-clock `timestamp` field
is omitted: the embedding has no clock and no claim reads it). -/
structure EmissionRecord where
  document_type : String
  serie_numero : String
  client_id : String
  total : ℚ
  currency : String
  pdf_url : String
  items_count : Nat
deriving DecidableEq

/-- `UserContext` of `schemas.py`; `loaded_at` is seconds on an abstract
clock supplied by the caller. -/
structure UserContextL where
  clients : List Dict := []
  products : List Dict := []
  history : List Dict := []
  loaded_at : Option Nat := none
deriving DecidableEq

def UserContextL.is_loaded (c : UserContextL) : Bool := c.loaded_at.isSome

/-- `UserContext.is_stale` with its default `ttl_minutes = 60`:
`age.total_seconds() > ttl_minutes * 60`. -/
def UserContextL.is_stale (c : UserContextL) (now : Nat) : Bool :=
  match c.loaded_at with
  | none => true
  | some t => 3600 < now - t

/-- One entry of `UserSession.messages`. -/
structure MsgRec where
  role : String
  content : String
deriving DecidableEq

/-- A `pending_items` entry (`{"cantidad": …, "descripcion": …}`). -/
structure PendingItem where
  cantidad : String
  descripcion : String
deriving DecidableEq

/-- `UserSession` of `schemas.py`.  `client_data` (used only to fill
the issuance payload's company ids) and the two wall-clock timestamps
are omitted; everything the dialogue logic reads or writes is here. -/
structure SessionSt where
  phone : String := ""
  user_name : Option String := none
  authenticated : Bool := false
  terms_accepted : Bool := false
  emission_data : EmissionData := EmissionData.init
  awaiting_confirmation : Bool := false
  awaiting_client_reconfirmation : Bool := false
  pending_items : List PendingItem := []
  conversation_context : Option String := none
  search_results : List Dict := []
  selected_product : Option Dict := none
  context : UserContextL := {}
  messages : List MsgRec := []
  session_emissions : List EmissionRecord := []
deriving DecidableEq

/-- `UserSession.add_message` (history ring bounded to the last 20). -/
def SessionSt.add_message (s : SessionSt) (role content : String) : SessionSt :=
  let ms := s.messages ++ [⟨role, content⟩]
  { s with messages := if ms.length > 20 then ms.drop (ms.length - 20) else ms }

/-- `UserSession.reset_emission`. -/
def SessionSt.reset_emission (s : SessionSt) : SessionSt :=
  { s with emission_data := s.emission_data.reset,
           awaiting_confirmation := false,
           awaiting_client_reconfirmation := false,
           pending_items := [],
           selected_product := none }

/-- `InvoiceResponse` of `schemas.py`. -/
structure InvoiceResponse where
  success : String
  estado : String
  serie : String
  numero : String
  id : Int
  mensaje : String
  pdf : String
deriving DecidableEq

def InvoiceResponse.is_successful (r : InvoiceResponse) : Bool :=
  pyUpper r.success == "TRUE"

def InvoiceResponse.get_full_number (r : InvoiceResponse) : String :=
  r.serie ++ "-" ++ r.numero

def InvoiceResponse.get_pdf_url (r : InvoiceResponse) : String := r.pdf

/-! ### Issuing-service client (`services/tinred_client.py`)

Each HTTP call is passed in as an `ApiResult` oracle: `ok` is the
decoded JSON of `_request`, `err` a raised `TinRedAPIError` (timeout,
connection refused, 4xx/5xx, undecodable body — all collapse to
`TinRedAPIError` in `_request`).  The catch-all `except Exception`
clauses of the source are unreachable in the pure embedding. -/

/-- `TinRedClient.check_client`: total — every transport error is
returned as `(False, "Error de conexión: …")`. -/
def check_client (r : ApiResult Dict) : Bool × String :=
  match r with
  | .err m => (false, "Error de conexión: " ++ m)
  | .ok resp =>
    match resp.lookup "01" with
    | some name => (true, name)
    | none =>
      match resp.lookup "00" with
      | some msg => (false, msg)
      | none =>
        match resp.find? (fun kv => kv.1 ≠ "00" ∧ kv.2.length > 2) with
        | some kv => (true, kv.2)
        | none => (false, "Respuesta no reconocida del servidor")

/-! ### Session manager (`services/session_manager.py`) -/

/-- `SessionManager.load_user_context`.  `now` is the abstract clock;
`netProducts` / `netClients` / `netHistory` are the results of the three
issuing-service list calls (`get_products` etc. are total in the
source: they swallow every error into `[]`).  The third component
records which issuing-service calls were issued. -/
def load_user_context (now : Nat)
    (netProducts netClients netHistory : List Dict)
    (s : SessionSt) (force : Bool := false) :
    Bool × SessionSt × List String :=
  if !force && s.context.is_loaded && !(s.context.is_stale now) then
    (true, s, [])
  else
    (true,
     { s with context := { clients := netClients, products := netProducts,
                           history := netHistory, loaded_at := some now } },
     ["products", "clients", "history"])

/-- `SessionManager.record_emission`. -/
def record_emission (s : SessionSt) (document_type serie_numero client_id : String)
    (total : ℚ) (currency pdf_url : String) (items_count : Nat) : SessionSt :=
  { s with session_emissions := s.session_emissions ++
      [{ document_type := if document_type = "01" then "Factura" else "Boleta",
         serie_numero := serie_numero, client_id := client_id, total := total,
         currency := currency, pdf_url := pdf_url, items_count := items_count }] }

/-! ### Slot extractor (`agents/data_extractor.py`)

Every `re` pattern of the extractor is re-implemented as a scanner with
the engine's semantics: positions are tried left to right, matches are
non-overlapping, greedy / lazy quantifiers backtrack exactly where the
fixed shape of each pattern allows. -/

/-- Result record of `DataExtractor.extract_all`; `items_sin_precio` of
the source is named `itemsNoPrice`. -/
structure Extracted where
  document_type : Option String
  id_type : Option String
  id_number : Option String
  currency : Option String
  items : List InvoiceItem
  itemsNoPrice : List PendingItem
deriving DecidableEq

/-- `DNI\s*[:\s]?\s*` / `RUC\s*[:\s]?\s*` separator: whitespace with at
most one colon. -/
def dropSep (r : List Char) : List Char :=
  let r1 := r.dropWhile isWsC
  match r1 with
  | ':' :: t => t.dropWhile isWsC
  | _ => r1

/-- `(\d{8})\b` at the head of `r2` (the digit group of the explicit
`DNI` pattern). -/
def dniDigitsAt (r2 : List Char) : Option String :=
  if (r2.takeWhile isDigitC).length = 8 ∧ boundaryAfter (r2.drop 8) then
    some (String.mk (r2.takeWhile isDigitC))
  else none

/-- `([12]0\d{9})\b` at the head of `r2`. -/
def rucDigitsAt : List Char → Option String
  | c1 :: '0' :: rest =>
    if (c1 = '1' ∨ c1 = '2') ∧ (rest.take 9).length = 9 ∧
       (rest.take 9).all isDigitC ∧ boundaryAfter (rest.drop 9) then
      some (String.mk (c1 :: '0' :: rest.take 9))
    else none
  | _ => none

/-- `re.search(r'DNI\s*[:\s]?\s*(\d{8})\b', text_upper)`. -/
def dniExplicitGo : List Char → Option String
  | [] => none
  | cs@(_ :: tl) =>
    match litAt ['D', 'N', 'I'] cs with
    | some r =>
      (match dniDigitsAt (dropSep r) with
       | some n => some n
       | none => dniExplicitGo tl)
    | none => dniExplicitGo tl

/-- `re.search(r'RUC\s*[:\s]?\s*([12]0\d{9})\b', text_upper)`. -/
def rucExplicitGo : List Char → Option String
  | [] => none
  | cs@(_ :: tl) =>
    match litAt ['R', 'U', 'C'] cs with
    | some r =>
      (match rucDigitsAt (dropSep r) with
       | some n => some n
       | none => rucExplicitGo tl)
    | none => rucExplicitGo tl

/-- `re.search(r'\b([12]0\d{9})\b', message)` — first loose RUC. -/
def rucSearchGo : List Char → Bool → Option String
  | [], _ => none
  | cs@(c :: tl), prevOk =>
    match (if prevOk then rucDigitsAt cs else none) with
    | some n => some n
    | none => rucSearchGo tl (!isWordC c)

def rucSearchStr (s : String) : Option String := rucSearchGo s.toList true

/-- `re.search(r'\b(\d{8})\b', text)` — first word-bounded 8-digit run. -/
def dniWBGo : List Char → Bool → Option String
  | [], _ => none
  | cs@(c :: tl), prevOk =>
    match (if prevOk then dniDigitsAt cs else none) with
    | some n => some n
    | none => dniWBGo tl (!isWordC c)

def dniWBSearchStr (s : String) : Option String := dniWBGo s.toList true

/-- One attempted match of `(?:^|[^\d])(\d{8})(?:[^\d]|$)` whose
captured digits start at the head of `cs`; the trailing border char is
consumed, as `re.findall` does. -/
def dniCore (cs : List Char) : Option (String × List Char) :=
  if (cs.takeWhile isDigitC).length = 8 then
    match cs.drop 8 with
    | [] => some (String.mk (cs.takeWhile isDigitC), [])
    | c :: tl =>
      if isDigitC c then none else some (String.mk (cs.takeWhile isDigitC), tl)
  else none

/-- `re.findall(r'(?:^|[^\d])(\d{8})(?:[^\d]|$)', message)`. -/
def dniFindAllGo : Nat → List Char → Bool → List String
  | 0, _, _ => []
  | _ + 1, [], _ => []
  | fuel + 1, cs@(c :: tl), atStart =>
    match (if atStart then dniCore cs else none) with
    | some (n, rest) => n :: dniFindAllGo fuel rest false
    | none =>
      match (if !isDigitC c then dniCore tl else none) with
      | some (n, rest) => n :: dniFindAllGo fuel rest false
      | none => dniFindAllGo fuel tl false

def dniFindAllStr (s : String) : List String :=
  dniFindAllGo (s.toList.length + 1) s.toList true

/-- `DataExtractor._extract_id`. -/
def extract_id (message : String) : Option (String × String) :=
  match dniExplicitGo (pyUpper message).toList with
  | some n => some ("1", n)
  | none =>
  match rucExplicitGo (pyUpper message).toList with
  | some n => some ("6", n)
  | none =>
  match rucSearchStr message with
  | some n => some ("6", n)
  | none =>
  match (dniFindAllStr message).find? (fun n => 1000000 ≤ digitsToNat n.toList) with
  | some n => some ("1", n)
  | none => none

/-! #### Item patterns -/

/-- Greedy `(\d+(?:[.,]\d{1,2})?)` without a trailing boundary
(patterns 1 and 2); the `,` is already replaced by `.` as the source
does afterwards. -/
def parsePrice (r : List Char) : Option (String × List Char) :=
  let run := r.takeWhile isDigitC
  if run.isEmpty then none
  else
    let rest := r.drop run.length
    match rest with
    | c :: tl =>
      if c = '.' ∨ c = ',' then
        let frun := tl.takeWhile isDigitC
        if frun.isEmpty then some (String.mk run, rest)
        else
          let f := frun.take 2
          some (String.mk (run ++ '.' :: f), tl.drop f.length)
      else some (String.mk run, rest)
    | [] => some (String.mk run, [])

/-- `(\d+(?:[.,]\d{1,2})?)\b` — same, but the trailing `\b` makes the
engine backtrack the optional fraction (pattern 3). -/
def parsePriceB (r : List Char) : Option (String × List Char) :=
  let run := r.takeWhile isDigitC
  if run.isEmpty then none
  else
    let rest := r.drop run.length
    match rest with
    | c :: tl =>
      if c = '.' ∨ c = ',' then
        let frun := tl.takeWhile isDigitC
        let tryFrac (k : Nat) : Option (String × List Char) :=
          let f := frun.take k
          if f.length = k ∧ boundaryAfter (tl.drop k) then
            some (String.mk (run ++ '.' :: f), tl.drop k)
          else none
        match tryFrac 2 with
        | some v => some v
        | none =>
          match tryFrac 1 with
          | some v => some v
          | none =>
            if boundaryAfter rest then some (String.mk run, rest) else none
      else if boundaryAfter rest then some (String.mk run, rest) else none
    | [] => some (String.mk run, [])

/-- First parse that succeeds among a list of candidate remainders. -/
def tryEach {α β : Type} (f : α → Option β) : List α → Option β
  | [] => none
  | a :: as =>
    match f a with
    | some b => some b
    | none => tryEach f as

/-- Optional `(?:PEN|USD|S/|s/|\$)?` on lower-cased text: candidate
remainders in the engine's preference order (consumed first). -/
def currencyCands (r : List Char) : List (List Char) :=
  ([['p', 'e', 'n'], ['u', 's', 'd'], ['s', '/'], ['$']].filterMap
      (fun w => litAt w r)) ++ [r]

/-- `\s*[@aA]\s*(?:PEN|USD|S/|s/|\$)?\s*price` of pattern 1, after the
lazily grown description. -/
def sepPrice1 (r : List Char) : Option (String × List Char) :=
  match r.dropWhile isWsC with
  | c :: tl =>
    if c = 'a' ∨ c = '@' then
      let t1 := tl.dropWhile isWsC
      tryEach (fun cand => parsePrice (cand.dropWhile isWsC)) (currencyCands t1)
    else none
  | [] => none

/-- `\s+(?:por|de)\s+(?:PEN|USD|S/|s/|\$)?\s*price` of pattern 2. -/
def sepPrice2 (r : List Char) : Option (String × List Char) :=
  if (r.takeWhile isWsC).isEmpty then none
  else
    let r1 := r.dropWhile isWsC
    let after : Option (List Char) :=
      match litAt ['p', 'o', 'r'] r1 with
      | some t => some t
      | none => litAt ['d', 'e'] r1
    match after with
    | some t =>
      if (t.takeWhile isWsC).isEmpty then none
      else
        let t1 := t.dropWhile isWsC
        tryEach (fun cand => parsePrice (cand.dropWhile isWsC)) (currencyCands t1)
    | none => none

/-- Lazy `([a-záéíóúñ][a-záéíóúñs\s]{1,30}?)` followed by `sep`:
extension chars are added one at a time (shortest match first), trying
`sep` after each. -/
def lazyDesc (sep : List Char → Option (String × List Char)) :
    Nat → List Char → List Char → Option (String × String × List Char)
  | 0, _, _ => none
  | _ + 1, _, [] => none
  | fuel + 1, accRev, c :: tl =>
    if isDescWsC c then
      let accRev' := c :: accRev
      match sep tl with
      | some (price, rest) => some (String.mk accRev'.reverse, price, rest)
      | none => lazyDesc sep fuel accRev' tl
    else none

/-- One attempted match of pattern 1
(`(\d{1,4})\s*[xX×]?\s*(desc){lazy}\s*[@aA]\s*(cur)?\s*(price)`) at the
head of `cs`, returning `(cantidad, raw desc, price)` and the suffix
after the match. -/
def match1At (cs : List Char) : Option ((String × String × String) × List Char) :=
  let run := cs.takeWhile isDigitC
  if run.isEmpty ∨ run.length > 4 then none
  else
    let rest1 := (cs.drop run.length).dropWhile isWsC
    let tryDesc (r : List Char) : Option ((String × String × String) × List Char) :=
      match r with
      | c :: tl =>
        if isDescC c then
          match lazyDesc sepPrice1 30 [c] tl with
          | some (d, p, rest) => some ((String.mk run, d, p), rest)
          | none => none
        else none
      | [] => none
    match rest1 with
    | c :: tl =>
      if c = 'x' ∨ c = '×' then
        match tryDesc (tl.dropWhile isWsC) with
        | some v => some v
        | none => tryDesc rest1
      else tryDesc rest1
    | [] => none

/-- One attempted match of pattern 2
(`(\d{1,4})\s+(desc){lazy}\s+(?:por|de)\s+(cur)?\s*(price)`). -/
def match2At (cs : List Char) : Option ((String × String × String) × List Char) :=
  let run := cs.takeWhile isDigitC
  if run.isEmpty ∨ run.length > 4 then none
  else
    let rest0 := cs.drop run.length
    if (rest0.takeWhile isWsC).isEmpty then none
    else
      match rest0.dropWhile isWsC with
      | c :: tl =>
        if isDescC c then
          match lazyDesc sepPrice2 30 [c] tl with
          | some (d, p, rest) => some ((String.mk run, d, p), rest)
          | none => none
        else none
      | [] => none

/-- One attempted match of pattern 3
(`\b(desc)\s+(?:a|@|por)\s+(cur)?\s*(price)\b` with a greedy,
whitespace-free description). -/
def match3At (cs : List Char) : Option ((String × String) × List Char) :=
  let run := cs.takeWhile isDescC
  if run.length < 3 ∨ run.length > 21 then none
  else
    let rest0 := cs.drop run.length
    if (rest0.takeWhile isWsC).isEmpty then none
    else
      let r1 := rest0.dropWhile isWsC
      let after : Option (List Char) :=
        match r1 with
        | 'a' :: tl => some tl
        | '@' :: tl => some tl
        | _ => litAt ['p', 'o', 'r'] r1
      match after with
      | some t =>
        if (t.takeWhile isWsC).isEmpty then none
        else
          let t1 := t.dropWhile isWsC
          match tryEach (fun cand => parsePriceB (cand.dropWhile isWsC)) (currencyCands t1) with
          | some (p, rest) => some ((String.mk run, p), rest)
          | none => none
      | none => none

/-- One attempted match of the no-price pattern
(`(\d{1,3})\s+([a-záéíóúñ][a-záéíóúñs]{2,25})`). -/
def matchSPAt (cs : List Char) : Option ((String × String) × List Char) :=
  let run := cs.takeWhile isDigitC
  if run.isEmpty ∨ run.length > 3 then none
  else
    let rest0 := cs.drop run.length
    if (rest0.takeWhile isWsC).isEmpty then none
    else
      let r1 := rest0.dropWhile isWsC
      let drun := r1.takeWhile isDescC
      if drun.length < 3 then none
      else
        let d := drun.take 26
        some ((String.mk run, String.mk d), r1.drop d.length)

/-- `re.finditer` driver: try a match at each position, emit it and
resume after its end, else advance one character. -/
def finditer {γ : Type} (matchAt : List Char → Option (γ × List Char)) :
    Nat → List Char → List γ
  | 0, _ => []
  | _ + 1, [] => []
  | fuel + 1, cs@(_ :: tl) =>
    match matchAt cs with
    | some (g, rest) => g :: finditer matchAt fuel rest
    | none => finditer matchAt fuel tl

/-- `re.finditer` driver for a pattern with a leading `\b` (pattern 3):
additionally tracks whether the previous character allows a boundary. -/
def finditerWB {γ : Type} (matchAt : List Char → Option (γ × List Char)) :
    Nat → List Char → Bool → List γ
  | 0, _, _ => []
  | _ + 1, [], _ => []
  | fuel + 1, cs@(c :: tl), prevOk =>
    match (if prevOk then matchAt cs else none) with
    | some (g, rest) => g :: finditerWB matchAt fuel rest false
    | none => finditerWB matchAt fuel tl (!isWordC c)

/-- The number-word table of `_extract_items`, in source order. -/
def palabrasNumero : List (String × String) :=
  [("un ", "1 "), ("uno ", "1 "), ("una ", "1 "),
   ("dos ", "2 "), ("tres ", "3 "), ("cuatro ", "4 "), ("cinco ", "5 "),
   ("seis ", "6 "), ("siete ", "7 "), ("ocho ", "8 "), ("nueve ", "9 "),
   ("diez ", "10 ")]

def normalizeNums (s : String) : String :=
  palabrasNumero.foldl (fun t p => pyReplace t p.1 p.2) s

def itemKey (i : InvoiceItem) : String × String := (pyLower i.descripcion, i.price)

/-- The `seen`-set loop shared by the three pattern passes and by
`update_session`: keep the first item of each `(desc.lower(), precio)`
key not already in `seen`. -/
def dedupByKey : List InvoiceItem → List (String × String) → List InvoiceItem
  | [], _ => []
  | i :: rest, seen =>
    if itemKey i ∈ seen then dedupByKey rest seen
    else i :: dedupByKey rest (itemKey i :: seen)

def dedupPending : List PendingItem → List String → List PendingItem
  | [], _ => []
  | i :: rest, seen =>
    if pyLower i.descripcion ∈ seen then dedupPending rest seen
    else i :: dedupPending rest (pyLower i.descripcion :: seen)

def keywordList3 : List String :=
  ["factura", "boleta", "dni", "ruc", "para", "cliente", "documento"]

def keywordListSP : List String :=
  ["dni", "ruc", "para", "cliente", "boleta", "factura", "soles", "dolares", "documento"]

/-- A pattern-1/2 hit as an `InvoiceItem`, `None` if the source's
validity test (`len(cant) < 5`, non-empty stripped description,
positive price) rejects it. -/
def mkItem12 (g : String × String × String) : Option InvoiceItem :=
  let d := pyStrip g.2.1
  if g.1.length ≥ 5 then none
  else if d.isEmpty then none
  else if ¬ (0 < (pyFloat g.2.2).getD 0) then none
  else some ⟨g.1, d, g.2.2⟩

/-- A pattern-3 hit as an `InvoiceItem` (quantity `"1"`), `None` if it
is a keyword, empty, or non-positive. -/
def mkItem3 (g : String × String) : Option InvoiceItem :=
  let d := pyStrip g.1
  if pyLower d ∈ keywordList3 then none
  else if d.isEmpty then none
  else if ¬ (0 < (pyFloat g.2).getD 0) then none
  else some ⟨"1", d, g.2⟩

/-- The valid priced-item candidates of a normalized text, in the order
the three patterns produce them. -/
def itemCands (cs : List Char) : List InvoiceItem :=
  (finditer match1At (cs.length + 1) cs).filterMap mkItem12 ++
  (finditer match2At (cs.length + 1) cs).filterMap mkItem12 ++
  (finditerWB match3At (cs.length + 1) cs true).filterMap mkItem3

/-- The text `_extract_items` parses: the message with the already
captured id number blanked out. -/
def itemsSourceText (message : String) (exclude : Option String) : String :=
  match exclude with
  | some n => pyReplace message n " "
  | none => message

/-- The priced items `_extract_items` returns: the three pattern
passes, validity-filtered, first-seen per key. -/
def extractedItems (message : String) (exclude : Option String) : List InvoiceItem :=
  dedupByKey
    (itemCands (normalizeNums (pyLower (itemsSourceText message exclude))).toList) []

/-- The `items_sin_precio` list `_extract_items` returns (only mined
when no priced item was found). -/
def extractedPending (message : String) (exclude : Option String) : List PendingItem :=
  if (extractedItems message exclude).isEmpty then
    let cs := (normalizeNums (pyLower (itemsSourceText message exclude))).toList
    dedupPending
      ((finditer matchSPAt (cs.length + 1) cs).filterMap (fun g =>
        let d := pyStrip g.2
        if pyLower d ∈ keywordListSP then none
        else some (⟨g.1, d⟩ : PendingItem)))
      []
  else []

/-- `DataExtractor._extract_items`. -/
def extract_items (message : String) (exclude : Option String) :
    List InvoiceItem × List PendingItem :=
  (extractedItems message exclude, extractedPending message exclude)

/-- `DataExtractor.extract_all`. -/
def extract_all (message : String) : Extracted :=
  let tl := pyLower message
  let doc0 : Option String :=
    if searchWord tl "factura" then some "01"
    else if searchWord tl "boleta" then some "03"
    else none
  let idinfo := extract_id message
  let doc : Option String :=
    match idinfo with
    | some (t, _) => if !truthyS doc0 && (t == "1") then some "03" else doc0
    | none => doc0
  let cur : Option String :=
    if ["dólar", "dolar", "dolares", "usd", "$"].any (containsSub tl) then some "USD"
    else some "PEN"
  { document_type := doc,
    id_type := idinfo.map (·.1),
    id_number := idinfo.map (·.2),
    currency := cur,
    items := (extract_items message (idinfo.map (·.2))).1,
    itemsNoPrice := (extract_items message (idinfo.map (·.2))).2 }

/-- `DataExtractor.update_session` (the merge into `EmissionData`). -/
def update_session (e : EmissionData) (x : Extracted) : EmissionData :=
  let e := if truthyS x.document_type && !truthyS e.document_type then
             { e with document_type := x.document_type } else e
  let e := if truthyS x.id_type && !truthyS e.id_type then
             { e with id_type := x.id_type, id_number := x.id_number } else e
  let e := if truthyS x.currency then { e with currency := x.currency } else e
  if x.items.isEmpty then e
  else { e with items := e.items ++ dedupByKey x.items (e.items.map itemKey) }

/-! ### Intent classifier (`agents/intent_classifier.py`) -/

inductive IntentType where
  | emit_invoice | query_products | query_clients | query_history
  | general_question | confirmation | cancel | greeting | unknown
deriving DecidableEq

/-- Search for a predicate match at any position (no leading `\b`). -/
def searchPlain (p : List Char → Bool) : List Char → Bool
  | [] => false
  | cs@(_ :: tl) => p cs || searchPlain p tl

/-- Search for a predicate match at any position whose pattern starts
with `\b` (the predicate is tried only where the boundary holds). -/
def searchPrevOk (p : List Char → Bool) : List Char → Bool → Bool
  | [], _ => false
  | cs@(c :: tl), prevOk => (prevOk && p cs) || searchPrevOk p tl (!isWordC c)

/-- `\b(w1|…)\s+((m1|…)\s+)?(v1|…)\b` at the current position. -/
def seqOptAt (w1s mids w2s : List String) (cs : List Char) : Bool :=
  let w2At (r : List Char) : Bool :=
    w2s.any (fun d =>
      match litAt d.toList r with
      | some rr => boundaryAfter rr
      | none => false)
  w1s.any (fun v =>
    match litAt v.toList cs with
    | some r =>
      !(r.takeWhile isWsC).isEmpty &&
      (let r1 := r.dropWhile isWsC
       w2At r1 ||
       mids.any (fun m =>
         match litAt m.toList r1 with
         | some rm => !(rm.takeWhile isWsC).isEmpty && w2At (rm.dropWhile isWsC)
         | none => false))
    | none => false)

def matchSeqOpt (text : String) (w1s mids w2s : List String) : Bool :=
  searchPrevOk (seqOptAt w1s mids w2s) (pyLower text).toList true

/-- `IntentClassifier.AFFIRMATIVE` (the three anchored alternations). -/
def affirmativeWords : List String :=
  ["si", "sí", "yes", "ok", "okey", "okay", "dale", "confirmo", "acepto",
   "adelante", "procede", "emite", "correcto", "claro", "por supuesto",
   "está bien", "esta bien", "de acuerdo", "listo", "perfecto"]

/-- `IntentClassifier.is_confirmation`. -/
def is_confirmation (message : String) : Bool :=
  anchoredWords message affirmativeWords

/-- `IntentClassifier.NEGATIVE`: one anchored alternation plus one
word-bounded alternation. -/
def is_cancellation (message : String) : Bool :=
  anchoredWords message ["no", "nop", "nope", "cancelar", "cancela", "olvida"] ||
  searchWords (pyLower message) ["mejor no", "no quiero", "detener", "parar", "salir"]

/-- `IntentClassifier.EMISSION` (`_match(text, emission_re)`). -/
def matchEmission (text : String) : Bool :=
  matchSeqOpt text ["emitir", "generar", "crear", "hacer", "necesito", "quiero"]
    ["una", "un"] ["factura", "boleta"] ||
  anchoredWords text ["factura", "boleta"] ||
  matchSeqOpt text ["factura", "boleta"] [] ["para", "con", "de"] ||
  matchSeqOpt text ["emite"] ["una", "un"] ["factura", "boleta"]

/-- `IntentClassifier.PRODUCTS`. -/
def matchProducts (text : String) : Bool :=
  searchWords (pyLower text)
    ["producto", "productos", "catálogo", "catalogo", "inventario"] ||
  searchWords (pyLower text)
    ["mis productos", "lista de productos", "ver productos"] ||
  matchSeqOpt text ["dame", "muestra", "ver"] ["los"] ["productos"]

/-- `IntentClassifier.CLIENTS`. -/
def matchClients (text : String) : Bool :=
  searchWords (pyLower text) ["cliente", "clientes", "mis clientes"]

/-- `(?:la|el)\s+(\d+|última|ultimo|ultima)\b`, tail of the third
HISTORY pattern. -/
def laElNumAt (r : List Char) : Bool :=
  ["la", "el"].any (fun a =>
    match litAt a.toList r with
    | some rr =>
      !(rr.takeWhile isWsC).isEmpty &&
      (let r2 := rr.dropWhile isWsC
       (let run := r2.takeWhile isDigitC
        !run.isEmpty && boundaryAfter (r2.drop run.length)) ||
       ["última", "ultimo", "ultima"].any (fun u =>
         match litAt u.toList r2 with
         | some ru => boundaryAfter ru
         | none => false))
    | none => false)

/-- Third HISTORY pattern
`\b(detalle|detalles|info)\s+(?:de\s+)?(?:la|el)\s+(\d+|última|ultimo|ultima)\b`. -/
def historyDetailAt (cs : List Char) : Bool :=
  ["detalle", "detalles", "info"].any (fun v =>
    match litAt v.toList cs with
    | some r =>
      !(r.takeWhile isWsC).isEmpty &&
      (let r1 := r.dropWhile isWsC
       laElNumAt r1 ||
       (match litAt ['d', 'e'] r1 with
        | some rm => !(rm.takeWhile isWsC).isEmpty && laElNumAt (rm.dropWhile isWsC)
        | none => false))
    | none => false)

/-- Fourth HISTORY pattern
`\b(última|ultimo|ultima|último)\s+(factura|boleta|emisi[oó]n)?\b`: after
the mandatory whitespace the optional word or the bare `\b` both reduce
to the next character being a word character. -/
def historyUltimaAt (cs : List Char) : Bool :=
  ["última", "ultimo", "ultima", "último"].any (fun v =>
    match litAt v.toList cs with
    | some r =>
      !(r.takeWhile isWsC).isEmpty &&
      (match r.dropWhile isWsC with
       | c :: _ => isWordC c
       | [] => false)
    | none => false)

/-- `IntentClassifier.HISTORY` (`_match(text, history_re)`). -/
def matchHistory (text : String) : Bool :=
  let tl := pyLower text
  searchWords tl ["historial", "histórico", "historico"] ||
  searchWords tl ["ventas", "emisiones"] ||
  searchPrevOk historyDetailAt tl.toList true ||
  searchPrevOk historyUltimaAt tl.toList true ||
  matchSeqOpt text ["la", "el", "mi"] ["de"] ["hoy"] ||
  matchSeqOpt text ["factura", "boleta"] ["de"] ["hoy"] ||
  matchSeqOpt text ["emitida", "generada"] [] ["hoy"]

/-- `IntentClassifier.GENERAL_QUESTIONS`. -/
def matchGeneral (text : String) : Bool :=
  let tl := pyLower text
  searchWords tl ["qué es", "que es", "cómo funciona", "como funciona"] ||
  searchWords tl ["diferencia", "diferencias"] ||
  searchWords tl ["ayuda", "duda", "dudas", "help"] ||
  searchWords tl ["igv"] ||
  searchWords tl ["explicame", "explícame"] ||
  matchSeqOpt text ["cómo", "como"] [] ["emitir", "hacer"]

/-- `IntentClassifier.GREETING`. -/
def matchGreeting (text : String) : Bool :=
  anchoredWords text
    ["hola", "hey", "hi", "buenos días", "buenas tardes", "buenas noches", "buenas"]

/-- `IntentClassifier.PRODUCT_SEARCH`. -/
def matchProductSearch (text : String) : Bool :=
  searchWords (pyLower text)
    ["busca", "buscar", "encuentra", "encontrar", "filtrar", "hay", "tiene",
     "tengo", "existe"]

/-- `\d+\s+\w+\s+(a|@|por)\s+\d+` at the current position (the
"item with price" cue of the classifier and the orchestrator). -/
def priceCueAt (cs : List Char) : Bool :=
  let run := cs.takeWhile isDigitC
  !run.isEmpty &&
  (let r0 := cs.drop run.length
   !(r0.takeWhile isWsC).isEmpty &&
   (let r1 := r0.dropWhile isWsC
    let wrun := r1.takeWhile isWordC
    !wrun.isEmpty &&
    (let r2 := r1.drop wrun.length
     !(r2.takeWhile isWsC).isEmpty &&
     (let r3 := r2.dropWhile isWsC
      let afterSep : Option (List Char) :=
        match r3 with
        | 'a' :: tl => some tl
        | '@' :: tl => some tl
        | _ => litAt ['p', 'o', 'r'] r3
      match afterSep with
      | some t =>
        !(t.takeWhile isWsC).isEmpty &&
        !((t.dropWhile isWsC).takeWhile isDigitC).isEmpty
      | none => false))))

def priceCue (tl : String) : Bool := searchPlain priceCueAt tl.toList

/-- `IntentClassifier._get_conversation_context`: message-history
fallback scan (newest of the last four messages first). -/
def inferCtx : List MsgRec → Option String
  | [] => none
  | m :: rest =>
    if m.role = "assistant" then
      let content := pyLower m.content
      if containsSub content "tus productos" ||
         (containsSub m.content "📦" &&
          (List.range' 1 15).any (fun i => containsSub m.content (toString i ++ "."))) then
        some "products"
      else if (containsSub content "historial" || containsSub content "últimas emisiones") &&
              (List.range' 1 10).any (fun i => containsSub m.content (toString i ++ ".")) then
        some "history"
      else if containsSub content "emisiones de hoy" then some "today_emissions"
      else if containsSub content "resultados para" then some "search_results"
      else if containsSub content "producto #" && containsSub content "¿deseas emitir" then
        some "product_detail"
      else inferCtx rest
    else inferCtx rest

def get_conversation_context (s : SessionSt) : Option String :=
  if truthyS s.conversation_context then s.conversation_context
  else inferCtx (s.messages.drop (s.messages.length - 4)).reverse

/-- `_has_active_emission` (identical in the classifier and the
orchestrator). -/
def has_active_emission (s : SessionSt) : Bool :=
  truthyS s.emission_data.document_type || truthyS s.emission_data.id_number ||
  !s.emission_data.items.isEmpty

/-- `re.match(r'^\d{1,2}$', text)` — a bare one- or two-digit token. -/
def isBareNum (text : String) : Bool :=
  !text.isEmpty && text.length ≤ 2 && text.toList.all isDigitC

/-- `IntentClassifier.classify` — the ordered rule pipeline. -/
def classify (message : String) (s : SessionSt) : IntentType × ℚ :=
  let text := pyStrip message
  let tl := pyLower text
  let lastCtx := get_conversation_context s
  let r0 : Option (IntentType × ℚ) :=
    if lastCtx = some "product_detail" ∧ is_confirmation text then
      some (.query_products, 95/100)
    else none
  let r1 : Option (IntentType × ℚ) :=
    if isBareNum text ∧
       lastCtx ∈ [some "history", some "products", some "search_results",
                  some "today_emissions"] then
      if lastCtx = some "products" ∨ lastCtx = some "search_results" then
        some (.query_products, 95/100)
      else some (.query_history, 95/100)
    else none
  let r2 : Option (IntentType × ℚ) :=
    if lastCtx = some "products" ∧ (matchProductSearch text ∨ text.length > 2) ∧
       ¬ matchEmission text ∧ ¬ matchHistory text then
      some (.query_products, 9/10)
    else none
  let r2b : Option (IntentType × ℚ) :=
    if s.awaiting_confirmation then
      if is_confirmation text then some (.confirmation, 95/100)
      else if is_cancellation text then some (.cancel, 95/100)
      else none
    else none
  let r3 : Option (IntentType × ℚ) :=
    if has_active_emission s then
      if is_cancellation text ∧ text.length < 15 then some (.cancel, 9/10)
      else if (dniWBSearchStr text).isSome ∨ (rucSearchStr text).isSome then
        some (.emit_invoice, 85/100)
      else if priceCue tl then some (.emit_invoice, 85/100)
      else none
    else none
  let r4 : Option (IntentType × ℚ) :=
    if matchHistory text then some (.query_history, 9/10)
    else if containsSub tl "detalle" ∧
            (tl.toList.any isDigitC ∨ containsSub tl "última" ∨ containsSub tl "ultimo") then
      some (.query_history, 9/10)
    else none
  let r5 : Option (IntentType × ℚ) :=
    if (matchGeneral text ∨ (containsSub text "?" ∧ text.length > 10)) ∧
       ¬ matchEmission text then
      some (.general_question, 9/10)
    else none
  let r6 : Option (IntentType × ℚ) :=
    if text.length < 25 ∧ matchGreeting text then some (.greeting, 9/10) else none
  let r7 : Option (IntentType × ℚ) :=
    if matchProducts text then some (.query_products, 9/10)
    else if matchProductSearch text ∧ containsSub tl "producto" then
      some (.query_products, 85/100)
    else none
  let r8 : Option (IntentType × ℚ) :=
    if matchEmission text then some (.emit_invoice, 85/100) else none
  let r9 : Option (IntentType × ℚ) :=
    if ((dniWBSearchStr text).isSome ∨ (rucSearchStr text).isSome) ∧
       (has_active_emission s ∨ containsSub tl "factura" ∨ containsSub tl "boleta") then
      some (.emit_invoice, 75/100)
    else none
  let r10 : Option (IntentType × ℚ) :=
    if matchClients text then some (.query_clients, 9/10) else none
  let r11 : Option (IntentType × ℚ) :=
    if lastCtx = some "products" ∧ ¬ matchEmission text then
      some (.query_products, 7/10)
    else if lastCtx = some "history" ∧ ¬ matchEmission text then
      some (.query_history, 7/10)
    else none
  ((((((((((((r0.orElse fun _ => r1).orElse fun _ => r2).orElse fun _ => r2b).orElse
      fun _ => r3).orElse fun _ => r4).orElse fun _ => r5).orElse fun _ => r6).orElse
      fun _ => r7).orElse fun _ => r8).orElse fun _ => r9).orElse fun _ => r10).orElse
      fun _ => r11).getD
    (if containsSub text "?" then (.general_question, 6/10) else (.unknown, 1/2))

/-! ### Emission agent (`agents/emission_agent.py`) -/

/-- `EmissionAgent._is_cancellation` (called on the lowered, stripped
message). -/
def agent_is_cancellation (msgLower : String) : Bool :=
  let ws := ["cancelar", "cancela", "cancelalo", "cancélalo",
             "no quiero", "no deseo", "olvida", "olvidalo", "olvídalo",
             "salir", "sal", "detener", "parar", "para",
             "dejalo", "déjalo", "ya no", "mejor no",
             "no gracias", "nada", "ninguno"]
  ws.any (fun w =>
    msgLower = w || (litAt (w ++ " ").toList msgLower.toList).isSome ||
    (litAt (w ++ ",").toList msgLower.toList).isSome) ||
  ["cancelar", "cancela", "no quiero", "olvida", "salir"].any (containsSub msgLower)

/-- `EmissionAgent._has_complete_data`. -/
def has_complete_data (e : EmissionData) : Bool :=
  truthyS e.document_type && truthyS e.id_number && !e.items.isEmpty

/-- `EmissionAgent._extract_price`: first `(\d+(?:[.,]\d{1,2})?)` in the
message, two-decimal formatted. -/
def priceSearchGo : List Char → Option String
  | [] => none
  | cs@(c :: tl) =>
    if isDigitC c then (parsePrice cs).map (·.1)
    else priceSearchGo tl

def extract_price (message : String) : Option String :=
  (priceSearchGo message.toList).map (fun p => formatFloat2 ((pyFloat p).getD 0))

/-- `re.sub(r'(\d)\s+(?=\d)', r'\1', message)` of
`_extract_document_number` (joins digit groups split by whitespace). -/
def collapseDigitWs : Nat → List Char → List Char
  | 0, cs => cs
  | _ + 1, [] => []
  | fuel + 1, c :: rest =>
    if isDigitC c then
      let ws := rest.takeWhile isWsC
      if !ws.isEmpty && (match rest.drop ws.length with
                         | d :: _ => isDigitC d
                         | [] => false) then
        c :: collapseDigitWs fuel (rest.drop ws.length)
      else c :: collapseDigitWs fuel rest
    else c :: collapseDigitWs fuel rest

/-- `EmissionAgent._extract_document_number`. -/
def extract_document_number (message : String) : Option (String × String) :=
  match rucSearchGo (collapseDigitWs (message.toList.length + 1) message.toList) true with
  | some n => some ("6", n)
  | none =>
    match dniWBGo (collapseDigitWs (message.toList.length + 1) message.toList) true with
    | some n => if 1000000 ≤ digitsToNat n.toList then some ("1", n) else none
    | none => none

/-- One attempted match of the conversation-mining item pattern
`(\d+)\s+([a-záéíóúñ]+)\s*(x|a|@|por)\s*(\d+)` (greedy description with
backtracking). -/
def convSepPrice (r : List Char) : Option (List Char) :=
  let r1 := r.dropWhile isWsC
  let after : Option (List Char) :=
    match r1 with
    | 'x' :: tl => some tl
    | 'a' :: tl => some tl
    | '@' :: tl => some tl
    | _ => litAt ['p', 'o', 'r'] r1
  match after with
  | some t =>
    let t1 := t.dropWhile isWsC
    let run := t1.takeWhile isDigitC
    if run.isEmpty then none else some t1
  | none => none

def convDescTry (drun : List Char) (r1 : List Char) : Nat → Option (String × String × List Char)
  | 0 => none
  | k + 1 =>
    match convSepPrice (r1.drop (k + 1)) with
    | some t1 =>
      let run := t1.takeWhile isDigitC
      some (String.mk (drun.take (k + 1)), String.mk run, t1.drop run.length)
    | none => convDescTry drun r1 k

def matchConvAt (cs : List Char) : Option ((String × String × String) × List Char) :=
  let run := cs.takeWhile isDigitC
  if run.isEmpty then none
  else
    let r0 := cs.drop run.length
    if (r0.takeWhile isWsC).isEmpty then none
    else
      let r1 := r0.dropWhile isWsC
      let drun := r1.takeWhile isDescC
      if drun.isEmpty then none
      else
        match convDescTry drun r1 drun.length with
        | some (d, p, rest) => some ((String.mk run, d, p), rest)
        | none => none

/-- `re.findall` of the conversation-mining item pattern over a lowered
message. -/
def convItems (content : String) : List (String × String × String) :=
  let cs := (pyLower content).toList
  finditer matchConvAt (cs.length + 1) cs

/-- Document-keyword block of the `_extract_from_conversation` loop
body. -/
def convStepDoc (e : EmissionData) (content : String) : EmissionData :=
  if !truthyS e.document_type then
    if containsSub (pyLower content) "factura" then { e with document_type := some "01" }
    else if containsSub (pyLower content) "boleta" then { e with document_type := some "03" }
    else e
  else e

/-- RUC block of the `_extract_from_conversation` loop body. -/
def convStepRuc (e : EmissionData) (content : String) : EmissionData :=
  if !truthyS e.id_number then
    match rucSearchStr content with
    | some n => { e with id_type := some "6", id_number := some n }
    | none => e
  else e

/-- DNI block of the `_extract_from_conversation` loop body. -/
def convStepDni (e : EmissionData) (content : String) : EmissionData :=
  if !truthyS e.id_number then
    match dniWBSearchStr content with
    | some n =>
      if 1000000 ≤ digitsToNat n.toList then
        { e with id_type := some "1", id_number := some n }
      else e
    | none => e
  else e

/-- Items block of the `_extract_from_conversation` loop body. -/
def convStepItems (e : EmissionData) (content : String) : EmissionData :=
  if e.items.isEmpty then
    { e with items := e.items ++ (convItems content).map (fun g =>
        ⟨g.1, g.2.1, formatFloat2 ((digitsToNat g.2.2.toList : ℚ))⟩) }
  else e

/-- One message step of `EmissionAgent._extract_from_conversation`
(the four blocks in source order). -/
def convStep (e : EmissionData) (content : String) : EmissionData :=
  convStepItems (convStepDni (convStepRuc (convStepDoc e content) content) content)
    content

/-- `EmissionAgent._extract_from_conversation` (scans the last ten
messages, then applies the DNI → Boleta inference). -/
def extract_from_conversation (s : SessionSt) : SessionSt :=
  let msgs := s.messages.drop (s.messages.length - 10)
  let e := msgs.foldl (fun e m => convStep e m.content) s.emission_data
  let e := if e.id_type = some "1" ∧ !truthyS e.document_type then
             { e with document_type := some "03" }
           else e
  { s with emission_data := e }

/-- `EmissionAgent._generate_summary` (also raises the
`awaiting_confirmation` flag). -/
def generate_summary (s : SessionSt) : String × SessionSt :=
  let e := s.emission_data
  let tipo := if e.document_type = some "01" then "FACTURA 📄" else "BOLETA 🧾"
  let id_tipo := if e.id_type = some "1" then "DNI" else "RUC"
  let symbol := if e.currency = some "PEN" then "S/" else "$"
  let client_line := match e.client_name with
    | some n => if n.isEmpty then "" else "\n👤 " ++ n
    | none => ""
  let items_text := String.join (e.items.map (fun i =>
    "  • " ++ i.cantidad ++ "x " ++ i.descripcion ++ " @ " ++ symbol ++
    formatFloat2 ((pyFloat i.price).getD 0) ++ " = " ++ symbol ++
    formatFloat2 i.subtotal ++ "\n"))
  let total := e.calculate_total
  ("📋 " ++ tipo ++ "\n\n📋 " ++ id_tipo ++ ": " ++ (e.id_number.getD "") ++
     client_line ++ "\n\n📦 Productos:\n" ++ items_text ++ "\n━━━━━━━━━━━━\n💵 TOTAL: " ++
     symbol ++ formatFloat2 total ++ "\n\n¿Emitir? ✅ Sí / ❌ No",
   { s with awaiting_confirmation := true })

/-- Tail of `EmissionAgent._request_data` after the
`tipo_documento` block. -/
def requestDataRest (missing : List String) (s : SessionSt) : String × SessionSt :=
  if missing.isEmpty then generate_summary s
  else if "identificacion_cliente" ∈ missing then ("¿DNI o RUC del cliente?", s)
  else if "productos" ∈ missing then
    (if s.emission_data.client_validated ∧ truthyS s.emission_data.client_name then
       ("👤 Cliente: " ++ (s.emission_data.client_name.getD "") ++ "\n📋 Doc: " ++
          (s.emission_data.id_number.getD "") ++
          "\n\n¿Qué productos?\n📝 Ej: 2 laptops a 2500", s)
     else ("¿Qué productos?\n📝 Ej: 2 laptops a 2500", s))
  else ("Falta: " ++ String.intercalate ", " missing, s)

/-- `EmissionAgent._request_data` (may itself fill the document type
from a DNI and fall through to the review screen). -/
def request_data (missing : List String) (s : SessionSt) : String × SessionSt :=
  let e := s.emission_data
  if "tipo_documento" ∈ missing then
    if e.id_type = some "1" then
      requestDataRest (missing.erase "tipo_documento")
        { s with emission_data := { e with document_type := some "03" } }
    else if e.id_type = some "6" then
      ("RUC " ++ (e.id_number.getD "") ++ "\n\n¿Factura o Boleta?", s)
    else ("¿Factura o Boleta?", s)
  else requestDataRest missing s

/-- The `"❌ Operación cancelada."` reply of the emission agent. -/
def cancelReply : String :=
  "❌ Operación cancelada.\n\n¿Qué más necesitas?\n📄 Factura | 🧾 Boleta | 📊 Historial"

/-- `EmissionAgent._validate_and_continue`; `cR` is the transport
outcome of the `checkclient_agente_ai` call. -/
def validate_and_continue (cR : ApiResult Dict) (s : SessionSt) : String × SessionSt :=
  let e := s.emission_data
  if !truthyS e.id_number then ("Necesito el DNI o RUC del cliente.", s)
  else
    let res := check_client cR
    if res.1 then
      let e' := { e with client_validated := true, client_name := some res.2 }
      let s' := { s with emission_data := e' }
      if !e'.items.isEmpty then generate_summary s'
      else
        let id_tipo := if e'.id_type = some "1" then "DNI" else "RUC"
        ("✅ Cliente encontrado:\n👤 " ++ res.2 ++ "\n📋 " ++ id_tipo ++ ": " ++
           (e'.id_number.getD "") ++
           "\n\n¿Qué productos incluimos?\n📝 Ej: 2 laptops a 2500, 3 cables a 50", s')
    else
      let base := "⚠️ El documento " ++ (e.id_number.getD "") ++
        " no fue encontrado en el sistema.\n"
      let msg :=
        if !e.items.isEmpty then
          base ++ "\n📦 Ya tengo registrados tus productos:\n" ++
          String.join (e.items.map (fun i =>
            "  • " ++ i.cantidad ++ "x " ++ i.descripcion ++ " @ S/" ++
            formatFloat2 ((pyFloat i.price).getD 0) ++ "\n")) ++
          "\nPor favor confirma el número de documento correcto para continuar.\n💡 Escribe el DNI (8 dígitos) o RUC (11 dígitos)"
        else
          base ++ "\nPor favor verifica e ingresa el número correcto.\n💡 DNI: 8 dígitos | RUC: 11 dígitos"
      (msg, { s with awaiting_client_reconfirmation := true })

/-- The id-overwriting assignments of
`EmissionAgent._handle_client_reconfirmation` (source lines 223-229):
install the new candidate id, clear the validation state and drop the
reconfirmation flag. -/
def applyNewId (s : SessionSt) (ty n : String) : SessionSt :=
  { s with emission_data := { s.emission_data with
             id_type := some ty, id_number := some n,
             client_validated := false, client_name := none },
           awaiting_client_reconfirmation := false }

/-- `EmissionAgent._handle_client_reconfirmation`. -/
def handle_client_reconfirmation (cR : ApiResult Dict) (message : String)
    (s : SessionSt) : String × SessionSt :=
  if agent_is_cancellation (pyStrip (pyLower message)) then
    (cancelReply, s.reset_emission)
  else
    match extract_document_number message with
    | some (ty, n) => validate_and_continue cR (applyNewId s ty n)
    | none =>
      ("No pude identificar un documento válido.\n\n📝 Ingresa:\n• DNI: 8 dígitos (ej: 12345678)\n• RUC: 11 dígitos (ej: 20161541991)\n\nO escribe \"cancelar\" para salir.", s)

/-- Result of `EmissionAgent.execute_emission`: the reply, the session
afterwards, and — when the issuance endpoint was actually called — the
`EmissionData` snapshot passed to `emit_invoice`. -/
structure ExecResult where
  reply : String
  st : SessionSt
  emitted : Option EmissionData
deriving DecidableEq

/-- The session after `execute_emission`'s opening
`_extract_from_conversation` step. -/
def postConv (s : SessionSt) : SessionSt :=
  if has_complete_data s.emission_data then s else extract_from_conversation s

/-- `EmissionAgent.execute_emission`.  `cR` is the check-client oracle
(used when the client is not yet validated), `eR` the issuance oracle:
`ok` an `InvoiceResponse`, `err` a raised `TinRedAPIError`. -/
def execute_emission (cR : ApiResult Dict) (eR : ApiResult InvoiceResponse)
    (s0 : SessionSt) : ExecResult :=
  let s := postConv s0
  let missing := s.emission_data.get_missing_fields
  if !missing.isEmpty then
    let r := request_data missing s
    ⟨r.1, r.2, none⟩
  else if !s.emission_data.client_validated then
    let r := validate_and_continue cR s
    ⟨r.1, r.2, none⟩
  else
    let e := s.emission_data
    match eR with
    | .err m => ⟨"❌ Error: " ++ m, s, some e⟩
    | .ok resp =>
      if resp.is_successful then
        let tipo := if e.document_type = some "01" then "Factura" else "Boleta"
        let full := resp.get_full_number
        let total := e.calculate_total
        let client_info := match e.client_name with
          | some n => if n.isEmpty then "" else "\n👤 " ++ n
          | none => ""
        let s' := record_emission s (e.document_type.getD "") full
                    (e.id_number.getD "") total (e.currency.getD "")
                    resp.get_pdf_url e.items.length
        ⟨"✅ ¡" ++ tipo ++ " emitida!" ++ client_info ++ "\n\n📄 " ++ full ++
           "\n💰 S/" ++ formatFloat2 total ++ "\n\n📥 PDF: " ++ resp.get_pdf_url ++
           "\n\n¿Algo más?",
         s'.reset_emission, some e⟩
      else ⟨"⚠️ Error: " ++ resp.mensaje, s, some e⟩

/-! ### Orchestrator (`agents/orchestrator.py`) — the pending-confirmation
branch (PASO 5 of `handle_message`), which clears the flag before
issuing and appends the reply to the history on the confirm path. -/

def confirmation_branch (cR : ApiResult Dict) (eR : ApiResult InvoiceResponse)
    (message : String) (s : SessionSt) : Option ExecResult :=
  if s.awaiting_confirmation then
    if is_confirmation message then
      let res := execute_emission cR eR { s with awaiting_confirmation := false }
      some { res with st := res.st.add_message "assistant" res.reply }
    else if is_cancellation message then
      some ⟨"❌ Cancelado.\n\n¿Qué más necesitas?",
            SessionSt.reset_emission { s with awaiting_confirmation := false }, none⟩
    else none
  else none

/-! ## Theorems -/

/-! ### C9 — fresh context loads are no-ops -/

/-- Claim C9: with `force = false`, a loaded cached `UserContext`
younger than the refresh window makes `load_user_context` return
success immediately, issue none of the three issuing-service calls,
and leave the cached context (indeed the whole session) unchanged; a
second call within the window is therefore a no-op as well. -/
theorem claim_C9 (now : Nat) (nP nC nH : List Dict) (s : SessionSt)
    (h1 : s.context.is_loaded = true) (h2 : s.context.is_stale now = false) :
    load_user_context now nP nC nH s false = (true, s, []) := by
  unfold load_user_context
  simp [h1, h2]

def c9session : SessionSt := { context := { loaded_at := some 100 } }

theorem claim_C9_witness :
    c9session.context.is_loaded = true ∧ c9session.context.is_stale 2000 = false ∧
    load_user_context 2000 [] [] [] c9session false = (true, c9session, []) :=
  ⟨by decide, by decide, claim_C9 2000 [] [] [] c9session (by decide) (by decide)⟩

/-! ### C10 — `check_client` is total and transport errors take the
not-found branch -/

/-- Claim C10: `check_client` maps every transport error to
`(False, "Error de conexión: …")` (it never raises — it is a total
function into `Bool × String` by construction), and at the emission
layer `_validate_and_continue` behaves on a transport error exactly as
on a genuine `{"00": …}` "client not found" response: the two runs are
equal, and with an id number present the reconfirmation branch is
taken. -/
theorem claim_C10 :
    (∀ m, check_client (ApiResult.err m) = (false, "Error de conexión: " ++ m)) ∧
    (∀ m msg s, validate_and_continue (ApiResult.err m) s =
                validate_and_continue (ApiResult.ok [("00", msg)]) s) ∧
    (∀ m s, truthyS s.emission_data.id_number = true →
       (validate_and_continue (ApiResult.err m) s).2.awaiting_client_reconfirmation = true) := by
  refine ⟨fun m => rfl, fun m msg s => rfl, fun m s h => ?_⟩
  unfold validate_and_continue
  simp [h, check_client]

def c10session : SessionSt :=
  { emission_data := { id_type := some "1", id_number := some "45678912" } }

theorem claim_C10_witness :
    truthyS c10session.emission_data.id_number = true ∧
    (validate_and_continue (ApiResult.err "Sin conexión")
        c10session).2.awaiting_client_reconfirmation = true :=
  ⟨by decide, claim_C10.2.2 "Sin conexión" c10session (by decide)⟩

/-! ### C6 — DNI infers a receipt, RUC does not auto-select -/

/-- Claim C6: if `extract_all` finds a DNI (id type `"1"`) and the
utterance has no `factura` / `boleta` keyword, the extracted document
kind is `"03"`; if it finds a RUC (id type `"6"`) and no such keyword,
the document kind stays unset. -/
theorem claim_C6 (msg n : String)
    (hf : searchWord (pyLower msg) "factura" = false)
    (hb : searchWord (pyLower msg) "boleta" = false) :
    (extract_id msg = some ("1", n) → (extract_all msg).document_type = some "03") ∧
    (extract_id msg = some ("6", n) → (extract_all msg).document_type = none) := by
  constructor <;> intro h <;> simp [extract_all, hf, hb, h, truthyS]

theorem claim_C6_witness :
    (extract_all "12345678").document_type = some "03" ∧
    (extract_all "20161541991").document_type = none :=
  ⟨(claim_C6 "12345678" "12345678" (by decide) (by decide)).1 (by decide),
   (claim_C6 "20161541991" "20161541991" (by decide) (by decide)).2 (by decide)⟩

/-! ### C8 — item de-duplication and order preservation -/

lemma extract_items_fst (msg : String) (ex : Option String) :
    (extract_items msg ex).1 = extractedItems msg ex := by
  simp only [extract_items]

lemma dedupByKey_sublist (l : List InvoiceItem) (seen : List (String × String)) :
    (dedupByKey l seen).Sublist l := by
  induction l generalizing seen with
  | nil => simp [dedupByKey]
  | cons i rest ih =>
    unfold dedupByKey
    split
    · exact (ih _).cons i
    · exact (ih _).cons₂ i

lemma dedupByKey_not_seen (l : List (InvoiceItem)) (seen : List (String × String)) :
    ∀ i ∈ dedupByKey l seen, itemKey i ∉ seen := by
  induction l generalizing seen with
  | nil => simp [dedupByKey]
  | cons j rest ih =>
    intro i hi
    unfold dedupByKey at hi
    by_cases hj : itemKey j ∈ seen
    · rw [if_pos hj] at hi
      exact ih seen i hi
    · rw [if_neg hj] at hi
      rcases List.mem_cons.1 hi with rfl | hi'
      · exact hj
      · intro hmem
        exact ih (itemKey j :: seen) i hi' (List.mem_cons_of_mem _ hmem)

lemma dedupByKey_pairwise (l : List InvoiceItem) (seen : List (String × String)) :
    (dedupByKey l seen).Pairwise (fun a b => itemKey a ≠ itemKey b) := by
  induction l generalizing seen with
  | nil => simp [dedupByKey]
  | cons j rest ih =>
    unfold dedupByKey
    split
    · exact ih seen
    · refine List.Pairwise.cons (fun b hb hkey => ?_) (ih _)
      exact dedupByKey_not_seen rest (itemKey j :: seen) b hb
        (hkey ▸ List.mem_cons_self _ _)

lemma dedupByKey_covers (l : List InvoiceItem) (seen : List (String × String)) :
    ∀ i ∈ l, itemKey i ∈ seen ∨ itemKey i ∈ (dedupByKey l seen).map itemKey := by
  induction l generalizing seen with
  | nil => simp
  | cons j rest ih =>
    intro i hi
    unfold dedupByKey
    by_cases hj : itemKey j ∈ seen
    · rw [if_pos hj]
      rcases List.mem_cons.1 hi with rfl | hi
      · exact Or.inl hj
      · exact ih seen i hi
    · rw [if_neg hj]
      rcases List.mem_cons.1 hi with rfl | hi
      · exact Or.inr (by simp)
      · rcases ih (itemKey j :: seen) i hi with h | h
        · rcases List.mem_cons.1 h with h | h
          · exact Or.inr (by simp [h])
          · exact Or.inl h
        · exact Or.inr (by simp [h])

lemma dedupByKey_eq_nil (l : List InvoiceItem) (seen : List (String × String))
    (h : ∀ i ∈ l, itemKey i ∈ seen) : dedupByKey l seen = [] := by
  induction l generalizing seen with
  | nil => rfl
  | cons j rest ih =>
    unfold dedupByKey
    rw [if_pos (h j (List.mem_cons_self _ _))]
    exact ih seen (fun i hi => h i (List.mem_cons_of_mem _ hi))

/-- The items loop of `update_session` appends exactly the first-seen
new-key items. -/
lemma update_session_items (e : EmissionData) (x : Extracted) :
    (update_session e x).items = e.items ++ dedupByKey x.items (e.items.map itemKey) := by
  unfold update_session
  by_cases hx : x.items.isEmpty
  · have hnil : x.items = [] := by simpa using hx
    rw [if_pos hx, hnil]
    rw [show ∀ s, dedupByKey [] s = [] from fun _ => rfl, List.append_nil]
    split <;> split <;> split <;> rfl
  · rw [if_neg hx]
    split <;> split <;> split <;> rfl

set_option maxHeartbeats 1000000 in
lemma extract_items_dup_once :
    (extract_items "2 ab a 4, 2 ab a 4" none).1.length = 1 := by decide

/-- Claim C8: the extracted item list has at most one item per
`(lowercased description, price)` key and is a sublist of (so preserves
the order of) the parsed candidates; the merge into `EmissionData`
appends only items whose key is not already present; and injecting the
same `(description, price)` twice in one turn yields exactly one item. -/
theorem claim_C8 :
    (∀ msg ex, ((extract_items msg ex).1).Pairwise (fun a b => itemKey a ≠ itemKey b)) ∧
    (∀ msg ex, ((extract_items msg ex).1).Sublist
       (itemCands (normalizeNums (pyLower (itemsSourceText msg ex))).toList)) ∧
    (∀ e x, (update_session e x).items =
       e.items ++ dedupByKey x.items (e.items.map itemKey)) ∧
    (∀ l seen, ∀ i ∈ dedupByKey l seen, itemKey i ∉ seen) ∧
    (extract_items "2 ab a 4, 2 ab a 4" none).1.length = 1 := by
  refine ⟨fun msg ex => ?_, fun msg ex => ?_, update_session_items,
          dedupByKey_not_seen, extract_items_dup_once⟩
  · rw [extract_items_fst]
    unfold extractedItems
    exact dedupByKey_pairwise _ _
  · rw [extract_items_fst]
    unfold extractedItems
    exact dedupByKey_sublist _ _

theorem claim_C8_witness :
    itemKey ⟨"1", "libro", "40"⟩ ∉ [(("lapicero", "3") : String × String)] :=
  claim_C8.2.2.2.1 [⟨"1", "libro", "40"⟩] [("lapicero", "3")]
    ⟨"1", "libro", "40"⟩ (by decide)

/-! ### C4 — extract-then-update on populated slots -/

lemma update_session_doc (e : EmissionData) (x : Extracted) :
    (update_session e x).document_type =
      if truthyS x.document_type && !truthyS e.document_type then x.document_type
      else e.document_type := by
  simp only [update_session]
  split <;> split <;> split <;> split <;> rfl

lemma update_session_id_type (e : EmissionData) (x : Extracted) :
    (update_session e x).id_type =
      if truthyS x.id_type && !truthyS e.id_type then x.id_type else e.id_type := by
  simp only [update_session]
  split <;> split <;> split <;> split <;> rfl

lemma update_session_id_number (e : EmissionData) (x : Extracted) :
    (update_session e x).id_number =
      if truthyS x.id_type && !truthyS e.id_type then x.id_number else e.id_number := by
  simp only [update_session]
  split <;> split <;> split <;> split <;> rfl

lemma update_session_currency (e : EmissionData) (x : Extracted) :
    (update_session e x).currency =
      if truthyS x.currency then x.currency else e.currency := by
  simp only [update_session]
  split <;> split <;> split <;> split <;> rfl

lemma update_session_validated (e : EmissionData) (x : Extracted) :
    (update_session e x).client_validated = e.client_validated ∧
    (update_session e x).client_name = e.client_name := by
  simp only [update_session]
  constructor <;> (split <;> split <;> split <;> split <;> rfl)

lemma extract_all_currency (msg : String) :
    (extract_all msg).currency = some "USD" ∨ (extract_all msg).currency = some "PEN" := by
  simp only [extract_all]
  split
  · exact Or.inl rfl
  · exact Or.inr rfl

lemma extract_all_currency_truthy (msg : String) :
    truthyS (extract_all msg).currency = true := by
  rcases extract_all_currency msg with h | h <;> rw [h] <;> decide

lemma truthy_of_if_update {c : Bool} {a b : Option String}
    (ha : truthyS a = true) (hb : truthyS b = true) :
    truthyS (if c then a else b) = true := by
  cases c <;> simpa

/-- The merge is idempotent: a second `update_session` with the same
extraction result changes nothing. -/
lemma update_session_idem (e : EmissionData) (x : Extracted)
    (hc : truthyS x.currency = true) :
    update_session (update_session e x) x = update_session e x := by
  have hitems : dedupByKey x.items ((update_session e x).items.map itemKey) = [] := by
    apply dedupByKey_eq_nil
    intro i hi
    rw [update_session_items, List.map_append, List.mem_append]
    rcases dedupByKey_covers x.items (e.items.map itemKey) i hi with h | h
    · exact Or.inl h
    · exact Or.inr h
  ext : 1
  · rw [update_session_doc (update_session e x) x, update_session_doc e x]
    by_cases hx : truthyS x.document_type = true
    all_goals by_cases he : truthyS e.document_type = true
    all_goals simp [hx, he]
  · rw [update_session_currency (update_session e x) x, update_session_currency e x, hc]
    simp
  · rw [update_session_id_type (update_session e x) x, update_session_id_type e x]
    by_cases hx : truthyS x.id_type = true
    all_goals by_cases he : truthyS e.id_type = true
    all_goals simp [hx, he]
  · rw [update_session_id_number (update_session e x) x, update_session_id_type e x,
        update_session_id_number e x]
    by_cases hx : truthyS x.id_type = true
    all_goals by_cases he : truthyS e.id_type = true
    all_goals simp [hx, he]
  · rw [update_session_items (update_session e x) x, hitems, List.append_nil]
  · exact (update_session_validated (update_session e x) x).1
  · exact (update_session_validated (update_session e x) x).2

/-- Claim C2 of the extractor (claim C4), amended: extract-then-update
never overwrites a populated document kind, never overwrites a
populated ID type / ID number pair, only appends to the item list, but
always overwrites the currency with the utterance's extracted currency
(`"PEN"` unless a dollar marker is present) — even when the stored
currency was already populated; and repeating extract-then-update with
the same utterance is a no-op on every slot. -/
theorem claim_C4 (e : EmissionData) (msg : String) :
    ((truthyS e.document_type = true →
        (update_session e (extract_all msg)).document_type = e.document_type) ∧
     (truthyS e.id_type = true →
        (update_session e (extract_all msg)).id_type = e.id_type ∧
        (update_session e (extract_all msg)).id_number = e.id_number)) ∧
    (∃ l, (update_session e (extract_all msg)).items = e.items ++ l) ∧
    (update_session e (extract_all msg)).currency = (extract_all msg).currency ∧
    update_session (update_session e (extract_all msg)) (extract_all msg) =
      update_session e (extract_all msg) := by
  refine ⟨⟨fun h => ?_, fun h => ?_⟩, ⟨_, update_session_items e _⟩, ?_, ?_⟩
  · rw [update_session_doc]
    simp [h]
  · rw [update_session_id_type, update_session_id_number]
    simp [h]
  · rw [update_session_currency, extract_all_currency_truthy]
    simp
  · exact update_session_idem e _ (extract_all_currency_truthy msg)

def c4emission : EmissionData :=
  { document_type := some "01", id_type := some "6",
    id_number := some "20161541991", items := [⟨"1", "libro", "40"⟩] }

theorem claim_C4_witness :
    truthyS c4emission.document_type = true ∧
    (update_session c4emission (extract_all "boleta dni 12345678")).document_type =
      c4emission.document_type ∧
    truthyS c4emission.id_type = true ∧
    (update_session c4emission (extract_all "boleta dni 12345678")).id_type =
      c4emission.id_type ∧
    (update_session c4emission (extract_all "boleta dni 12345678")).id_number =
      c4emission.id_number :=
  ⟨by decide,
   (claim_C4 c4emission "boleta dni 12345678").1.1 (by decide),
   by decide,
   ((claim_C4 c4emission "boleta dni 12345678").1.2 (by decide)).1,
   ((claim_C4 c4emission "boleta dni 12345678").1.2 (by decide)).2⟩

/-- Counterexample to claim C4 as stated: the currency slot of a fresh
`EmissionData` is populated (`"PEN"`), yet extract-then-update on the
utterance `"dolares"` overwrites it with `"USD"`. -/
theorem claim_C4_counterexample :
    truthyS EmissionData.init.currency = true ∧
    (update_session EmissionData.init (extract_all "dolares")).currency ≠
      EmissionData.init.currency := by
  constructor
  · decide
  · decide

/-! ### C7 — bare-integer selection follows the conversation context -/

lemma get_ctx_of_some (s : SessionSt) (c : String)
    (h : s.conversation_context = some c) (hc : c ≠ "") :
    get_conversation_context s = some c := by
  unfold get_conversation_context
  rw [h]
  simp [truthyS, hc]

/-- Claim C7: a bare one- or two-digit utterance classifies as
`QUERY_PRODUCTS` when the conversation context is `products` or
`search_results`, and as `QUERY_HISTORY` when it is `history` or
`today_emissions`. -/
theorem claim_C7 (msg : String) (s : SessionSt)
    (h : isBareNum (pyStrip msg) = true) :
    ((s.conversation_context = some "products" ∨
      s.conversation_context = some "search_results") →
       (classify msg s).1 = IntentType.query_products) ∧
    ((s.conversation_context = some "history" ∨
      s.conversation_context = some "today_emissions") →
       (classify msg s).1 = IntentType.query_history) := by
  constructor
  · rintro (hc | hc)
    · have hctx := get_ctx_of_some s "products" hc (by decide)
      simp [classify, hctx, h, Option.orElse]
    · have hctx := get_ctx_of_some s "search_results" hc (by decide)
      simp [classify, hctx, h, Option.orElse]
  · rintro (hc | hc)
    · have hctx := get_ctx_of_some s "history" hc (by decide)
      simp [classify, hctx, h, Option.orElse]
    · have hctx := get_ctx_of_some s "today_emissions" hc (by decide)
      simp [classify, hctx, h, Option.orElse]

def c7products : SessionSt := { conversation_context := some "products" }

def c7history : SessionSt := { conversation_context := some "history" }

theorem claim_C7_witness :
    isBareNum (pyStrip "2") = true ∧
    (classify "2" c7products).1 = IntentType.query_products ∧
    (classify "7" c7history).1 = IntentType.query_history :=
  ⟨by decide,
   (claim_C7 "2" c7products (by decide)).1 (Or.inl rfl),
   (claim_C7 "7" c7history (by decide)).2 (Or.inl rfl)⟩

/-! ### C3 — transport errors do mutate the session during validation -/

def c3session : SessionSt :=
  { emission_data := { document_type := some "03", id_type := some "1",
                       id_number := some "11111111" } }

/-- Counterexample to claim C3 as stated: a transport error (timeout)
during the check-client call does not leave the session untouched —
`_validate_and_continue` takes the "client not found" branch and sets
`awaiting_client_reconfirmation`, so the state after the turn differs
from the state before. -/
theorem claim_C3_counterexample :
    (validate_and_continue (ApiResult.err "Timeout") c3session).2 ≠ c3session := by
  decide

/-- Claim C3, amended: a transport error in an issuing-service call is
converted to a string, but the session is not always left untouched.
During client validation the error is returned as
`(False, "Error de conexión: …")` and handled as "client not found":
the reply is the not-found prompt and `awaiting_client_reconfirmation`
is set (`EmissionData` itself is unchanged).  Only during issuance does
a transport error behave as the claim says: the reply is
`"❌ Error: <msg>"` and the session (post conversation-extraction) is
returned unchanged, with no emission recorded. -/
theorem claim_C3 :
    (∀ m, check_client (ApiResult.err m) = (false, "Error de conexión: " ++ m)) ∧
    (∀ m s, truthyS s.emission_data.id_number = true →
       (validate_and_continue (ApiResult.err m) s).2.awaiting_client_reconfirmation = true ∧
       (validate_and_continue (ApiResult.err m) s).2.emission_data = s.emission_data) ∧
    (∀ m cR s, (postConv s).emission_data.get_missing_fields = [] →
       (postConv s).emission_data.client_validated = true →
       execute_emission cR (ApiResult.err m) s =
         ⟨"❌ Error: " ++ m, postConv s, some (postConv s).emission_data⟩) := by
  refine ⟨fun m => rfl, fun m s h => ?_, fun m cR s h1 h2 => ?_⟩
  · unfold validate_and_continue
    simp [h, check_client]
  · unfold execute_emission
    simp [h1, h2]

def c3valSession : SessionSt :=
  { emission_data := { document_type := some "03", id_type := some "1",
                       id_number := some "11111111",
                       items := [⟨"1", "libro", "40"⟩],
                       client_validated := true, client_name := some "JUAN" } }

theorem claim_C3_witness :
    (truthyS c3session.emission_data.id_number = true ∧
     (validate_and_continue (ApiResult.err "Timeout")
         c3session).2.awaiting_client_reconfirmation = true) ∧
    ((postConv c3valSession).emission_data.get_missing_fields = [] ∧
     execute_emission (ApiResult.ok []) (ApiResult.err "Sin conexión") c3valSession =
       ⟨"❌ Error: Sin conexión", postConv c3valSession,
        some (postConv c3valSession).emission_data⟩) :=
  ⟨⟨by decide, (claim_C3.2.1 "Timeout" c3session (by decide)).1⟩,
   ⟨by decide,
    claim_C3.2.2 "Sin conexión" (ApiResult.ok []) c3valSession (by decide) (by decide)⟩⟩

/-! ### C2 — rejected issuance surfaces the error but does not reset -/

lemma extract_from_conversation_state (s : SessionSt) :
    (extract_from_conversation s).awaiting_confirmation = s.awaiting_confirmation ∧
    (extract_from_conversation s).awaiting_client_reconfirmation =
      s.awaiting_client_reconfirmation := ⟨rfl, rfl⟩

lemma postConv_flags (s : SessionSt) :
    (postConv s).awaiting_confirmation = s.awaiting_confirmation ∧
    (postConv s).awaiting_client_reconfirmation = s.awaiting_client_reconfirmation := by
  unfold postConv
  split
  · exact ⟨rfl, rfl⟩
  · exact extract_from_conversation_state s

lemma add_message_state (s : SessionSt) (r c : String) :
    (s.add_message r c).emission_data = s.emission_data ∧
    (s.add_message r c).awaiting_confirmation = s.awaiting_confirmation ∧
    (s.add_message r c).awaiting_client_reconfirmation =
      s.awaiting_client_reconfirmation := ⟨rfl, rfl, rfl⟩

/-- `execute_emission` on a decoded response with `success ≠ "TRUE"`:
the error is surfaced verbatim and the session (post
conversation-extraction) is returned as-is — no reset. -/
lemma execute_emission_fail (cR : ApiResult Dict) (resp : InvoiceResponse) (s : SessionSt)
    (h3 : (postConv s).emission_data.get_missing_fields = [])
    (h4 : (postConv s).emission_data.client_validated = true)
    (h5 : resp.is_successful = false) :
    execute_emission cR (ApiResult.ok resp) s =
      ⟨"⚠️ Error: " ++ resp.mensaje, postConv s, some (postConv s).emission_data⟩ := by
  unfold execute_emission
  simp [h3, h4, h5]

/-- Claim C2, amended: on `success ≠ "TRUE"` the engine replies
`"⚠️ Error: <mensaje>"`, and `awaiting_confirmation` is false — but only
because the orchestrator cleared it before calling `execute_emission`.
The emission is NOT reset: `EmissionData` keeps its pre-call value (it
does not return to its initial value), and
`awaiting_client_reconfirmation` merely keeps whatever value it had. -/
theorem claim_C2 (s : SessionSt) (cR : ApiResult Dict) (resp : InvoiceResponse)
    (msg : String)
    (h1 : s.awaiting_confirmation = true) (h2 : is_confirmation msg = true)
    (h3 : (postConv { s with awaiting_confirmation := false
             }).emission_data.get_missing_fields = [])
    (h4 : (postConv { s with awaiting_confirmation := false
             }).emission_data.client_validated = true)
    (h5 : resp.is_successful = false) :
    ∃ r, confirmation_branch cR (ApiResult.ok resp) msg s = some r ∧
      r.reply = "⚠️ Error: " ++ resp.mensaje ∧
      r.st.emission_data =
        (postConv { s with awaiting_confirmation := false }).emission_data ∧
      r.st.awaiting_confirmation = false ∧
      r.st.awaiting_client_reconfirmation = s.awaiting_client_reconfirmation := by
  have hexec := execute_emission_fail cR resp { s with awaiting_confirmation := false }
    h3 h4 h5
  unfold confirmation_branch
  rw [h1]
  simp only [h2, if_true, hexec]
  refine ⟨_, rfl, rfl, (add_message_state _ _ _).1, ?_, ?_⟩
  · rw [(add_message_state _ _ _).2.1, (postConv_flags _).1]
  · rw [(add_message_state _ _ _).2.2, (postConv_flags _).2]

def c2session : SessionSt :=
  { emission_data := { document_type := some "03", id_type := some "1",
                       id_number := some "12345678",
                       items := [⟨"2", "cuadernos", "15"⟩],
                       client_validated := true, client_name := some "JUAN" },
    awaiting_confirmation := true }

def c2resp : InvoiceResponse := ⟨"FALSE", "", "", "", 0, "rechazado", ""⟩

theorem claim_C2_witness :
    c2session.awaiting_confirmation = true ∧
    (∃ r, confirmation_branch (ApiResult.ok []) (ApiResult.ok c2resp) "Sí" c2session =
            some r ∧
      r.reply = "⚠️ Error: " ++ c2resp.mensaje ∧
      r.st.emission_data =
        (postConv { c2session with awaiting_confirmation := false }).emission_data ∧
      r.st.awaiting_confirmation = false ∧
      r.st.awaiting_client_reconfirmation = c2session.awaiting_client_reconfirmation) :=
  ⟨rfl, claim_C2 c2session (ApiResult.ok []) c2resp "Sí" rfl (by decide)
    (by decide) (by decide) (by decide)⟩

/-- Counterexample to claim C2 as stated: after a rejected issuance the
reply is `"⚠️ Error: rechazado"`, but `EmissionData` is NOT equal to
its initial value — the captured data survives the failure. -/
theorem claim_C2_counterexample :
    ((confirmation_branch (ApiResult.ok []) (ApiResult.ok c2resp) "Sí" c2session).map
       ExecResult.reply = some "⚠️ Error: rechazado") ∧
    ((confirmation_branch (ApiResult.ok []) (ApiResult.ok c2resp) "Sí" c2session).map
       (fun r => r.st.emission_data) ≠ some EmissionData.init) := by
  constructor
  · decide
  · decide

/-! ### C1 — issuance only with complete, validated data -/

lemma get_missing_nil (e : EmissionData) :
    e.get_missing_fields = [] ↔
      (truthyS e.document_type = true ∧ truthyS e.id_type = true ∧
       truthyS e.id_number = true ∧ e.items ≠ []) := by
  unfold EmissionData.get_missing_fields
  by_cases h1 : truthyS e.document_type = true
  all_goals by_cases h2 : truthyS e.id_type = true
  all_goals by_cases h3 : truthyS e.id_number = true
  all_goals by_cases h4 : e.items.isEmpty
  all_goals simp_all [List.isEmpty_iff]

lemma convStepDoc_currency (e : EmissionData) (c : String) :
    (convStepDoc e c).currency = e.currency := by
  simp only [convStepDoc]
  repeat' split
  all_goals rfl

lemma convStepRuc_currency (e : EmissionData) (c : String) :
    (convStepRuc e c).currency = e.currency := by
  simp only [convStepRuc]
  repeat' split
  all_goals rfl

lemma convStepDni_currency (e : EmissionData) (c : String) :
    (convStepDni e c).currency = e.currency := by
  simp only [convStepDni]
  repeat' split
  all_goals rfl

lemma convStepItems_currency (e : EmissionData) (c : String) :
    (convStepItems e c).currency = e.currency := by
  simp only [convStepItems]
  split
  all_goals rfl

lemma convStep_currency (e : EmissionData) (c : String) :
    (convStep e c).currency = e.currency := by
  simp only [convStep]
  rw [convStepItems_currency, convStepDni_currency, convStepRuc_currency,
      convStepDoc_currency]

lemma foldl_convStep_currency (ms : List MsgRec) (e : EmissionData) :
    (ms.foldl (fun e m => convStep e m.content) e).currency = e.currency := by
  induction ms generalizing e with
  | nil => rfl
  | cons m rest ih => rw [List.foldl_cons, ih, convStep_currency]

lemma extract_from_conversation_currency (s : SessionSt) :
    (extract_from_conversation s).emission_data.currency =
      s.emission_data.currency := by
  simp only [extract_from_conversation]
  split
  · exact foldl_convStep_currency _ _
  · exact foldl_convStep_currency _ _

lemma postConv_currency (s : SessionSt) :
    (postConv s).emission_data.currency = s.emission_data.currency := by
  unfold postConv
  split
  · rfl
  · exact extract_from_conversation_currency s

/-- Claim C1: `emit_invoice` is reached by `execute_emission` only with
an `EmissionData` whose document kind, currency, ID type, ID number are
set, with at least one line item, and with `client_validated = true`;
whenever (after the agent's own conversation-mining step) a field is
missing or the client is not validated, no issuance call is made.  The
currency hypothesis holds in every reachable state: `EmissionData`
starts at `"PEN"` and `update_session` / `reset` only ever write
`"PEN"` or `"USD"`. -/
theorem claim_C1 (cR : ApiResult Dict) (eR : ApiResult InvoiceResponse) (s : SessionSt)
    (hcur : truthyS s.emission_data.currency = true) :
    (∀ d, (execute_emission cR eR s).emitted = some d →
       truthyS d.document_type = true ∧ truthyS d.currency = true ∧
       truthyS d.id_type = true ∧ truthyS d.id_number = true ∧
       d.items ≠ [] ∧ d.client_validated = true) ∧
    ((postConv s).emission_data.get_missing_fields ≠ [] →
       (execute_emission cR eR s).emitted = none) ∧
    ((postConv s).emission_data.client_validated = false →
       (execute_emission cR eR s).emitted = none) := by
  by_cases hm : (postConv s).emission_data.get_missing_fields = []
  · by_cases hv : (postConv s).emission_data.client_validated = true
    · have hemit : (execute_emission cR eR s).emitted =
          some ((postConv s).emission_data) := by
        unfold execute_emission
        cases eR with
        | err m => simp [hm, hv]
        | ok resp =>
          simp only [hm, hv, List.isEmpty_nil, Bool.not_true, Bool.false_eq_true,
            if_false]
          split <;> rfl
      refine ⟨fun d hd => ?_, fun hne => absurd hm hne, fun hvf => ?_⟩
      · rw [hemit, Option.some.injEq] at hd
        subst hd
        rcases (get_missing_nil _).1 hm with ⟨hdoc, hidt, hidn, hitems⟩
        refine ⟨hdoc, ?_, hidt, hidn, hitems, hv⟩
        rw [postConv_currency]
        exact hcur
      · rw [hvf] at hv
        cases hv
    · rw [Bool.not_eq_true] at hv
      have hnone : (execute_emission cR eR s).emitted = none := by
        unfold execute_emission
        simp [hm, hv]
      exact ⟨fun d hd => absurd hd (by simp [hnone]), fun _ => hnone, fun _ => hnone⟩
  · have hie : ((postConv s).emission_data.get_missing_fields).isEmpty = false := by
      cases h : (postConv s).emission_data.get_missing_fields with
      | nil => exact absurd h hm
      | cons a l => rfl
    have hnone : (execute_emission cR eR s).emitted = none := by
      unfold execute_emission
      simp [hie]
    exact ⟨fun d hd => absurd hd (by simp [hnone]), fun _ => hnone, fun _ => hnone⟩

def c1session : SessionSt :=
  { emission_data := { document_type := some "03", id_type := some "1",
                       id_number := some "12345678",
                       items := [⟨"2", "cuadernos", "15"⟩],
                       client_validated := true, client_name := some "JUAN" } }

theorem claim_C1_witness :
    truthyS c1session.emission_data.currency = true ∧
    (∀ d, (execute_emission (ApiResult.ok [])
             (ApiResult.ok ⟨"TRUE", "A", "B001", "123", 7, "", "p"⟩)
             c1session).emitted = some d →
       truthyS d.document_type = true ∧ truthyS d.currency = true ∧
       truthyS d.id_type = true ∧ truthyS d.id_number = true ∧
       d.items ≠ [] ∧ d.client_validated = true) ∧
    (execute_emission (ApiResult.ok [])
       (ApiResult.ok ⟨"TRUE", "A", "B001", "123", 7, "", "p"⟩)
       c1session).emitted = some c1session.emission_data :=
  ⟨by decide,
   (claim_C1 (ApiResult.ok []) (ApiResult.ok ⟨"TRUE", "A", "B001", "123", 7, "", "p"⟩)
      c1session (by decide)).1,
   by decide⟩

/-! ### C5 — changing the id number clears the validation state -/

lemma String_mk_ne_nil {l : List Char} (h : l ≠ []) : String.mk l ≠ "" := by
  intro heq
  exact h (congrArg String.data heq)

lemma takeWhile_len8_ne {l : List Char} {p : Char → Bool}
    (h : (l.takeWhile p).length = 8) : l.takeWhile p ≠ [] := by
  intro hnil
  rw [hnil] at h
  cases h

lemma dniDigitsAt_ne {r2 : List Char} {n : String}
    (h : dniDigitsAt r2 = some n) : n ≠ "" := by
  unfold dniDigitsAt at h
  by_cases hc : (r2.takeWhile isDigitC).length = 8 ∧ boundaryAfter (r2.drop 8) = true
  · rw [if_pos hc] at h
    cases h
    exact String_mk_ne_nil (takeWhile_len8_ne hc.1)
  · rw [if_neg hc] at h
    cases h

lemma rucDigitsAt_ne {r2 : List Char} {n : String}
    (h : rucDigitsAt r2 = some n) : n ≠ "" := by
  unfold rucDigitsAt at h
  split at h
  · split at h
    · cases h
      exact String_mk_ne_nil (by simp)
    · cases h
  · cases h

lemma dniExplicitGo_ne : ∀ cs n, dniExplicitGo cs = some n → n ≠ "" := by
  intro cs
  induction cs with
  | nil => intro n h; simp [dniExplicitGo] at h
  | cons c tl ih =>
    intro n h
    unfold dniExplicitGo at h
    split at h
    · split at h
      · cases h
        rename_i hd
        exact dniDigitsAt_ne hd
      · exact ih n h
    · exact ih n h

lemma rucExplicitGo_ne : ∀ cs n, rucExplicitGo cs = some n → n ≠ "" := by
  intro cs
  induction cs with
  | nil => intro n h; simp [rucExplicitGo] at h
  | cons c tl ih =>
    intro n h
    unfold rucExplicitGo at h
    split at h
    · split at h
      · cases h
        rename_i hd
        exact rucDigitsAt_ne hd
      · exact ih n h
    · exact ih n h

lemma rucSearchGo_ne : ∀ cs b n, rucSearchGo cs b = some n → n ≠ "" := by
  intro cs
  induction cs with
  | nil => intro b n h; simp [rucSearchGo] at h
  | cons c tl ih =>
    intro b n h
    unfold rucSearchGo at h
    split at h
    · cases h
      rename_i hx
      split at hx
      · exact rucDigitsAt_ne hx
      · cases hx
    · exact ih _ n h

lemma dniWBGo_ne : ∀ cs b n, dniWBGo cs b = some n → n ≠ "" := by
  intro cs
  induction cs with
  | nil => intro b n h; simp [dniWBGo] at h
  | cons c tl ih =>
    intro b n h
    unfold dniWBGo at h
    split at h
    · cases h
      rename_i hx
      split at hx
      · exact dniDigitsAt_ne hx
      · cases hx
    · exact ih _ n h

lemma dniCore_ne {cs : List Char} {n : String} {rest : List Char}
    (h : dniCore cs = some (n, rest)) : n ≠ "" := by
  unfold dniCore at h
  split at h
  · rename_i hlen
    split at h
    · cases h
      exact String_mk_ne_nil (takeWhile_len8_ne hlen)
    · split at h
      · cases h
      · cases h
        exact String_mk_ne_nil (takeWhile_len8_ne hlen)
  · cases h

lemma dniFindAllGo_ne :
    ∀ fuel cs b n, n ∈ dniFindAllGo fuel cs b → n ≠ "" := by
  intro fuel
  induction fuel with
  | zero => intro cs b n h; simp [dniFindAllGo] at h
  | succ f ih =>
    intro cs b n h
    cases cs with
    | nil => simp [dniFindAllGo] at h
    | cons c tl =>
      unfold dniFindAllGo at h
      rcases h1 : (if b = true then dniCore (c :: tl) else none) with _ | ⟨n0, rest⟩
      · rw [h1] at h
        rcases h2 : (if !isDigitC c then dniCore tl else none) with _ | ⟨n0, rest⟩
        · rw [h2] at h
          exact ih tl false n h
        · rw [h2] at h
          rcases List.mem_cons.1 h with rfl | h3
          · split at h2
            · exact dniCore_ne h2
            · cases h2
          · exact ih rest false n h3
      · rw [h1] at h
        rcases List.mem_cons.1 h with rfl | h3
        · split at h1
          · exact dniCore_ne h1
          · cases h1
        · exact ih rest false n h3

lemma extract_id_wf {msg : String} {p : String × String}
    (h : extract_id msg = some p) : p.1 ≠ "" ∧ p.2 ≠ "" := by
  unfold extract_id at h
  split at h
  · cases h
    rename_i n h1
    exact ⟨by simp, dniExplicitGo_ne _ n h1⟩
  · split at h
    · cases h
      rename_i n h2
      exact ⟨by simp, rucExplicitGo_ne _ n h2⟩
    · split at h
      · cases h
        rename_i n h3
        exact ⟨by simp, rucSearchGo_ne _ _ n h3⟩
      · split at h
        · cases h
          rename_i n h4
          exact ⟨by simp, dniFindAllGo_ne _ _ _ n (List.mem_of_find?_eq_some h4)⟩
        · cases h

lemma extract_document_number_wf {msg : String} {p : String × String}
    (h : extract_document_number msg = some p) : p.1 ≠ "" ∧ p.2 ≠ "" := by
  unfold extract_document_number at h
  split at h
  · cases h
    rename_i n h1
    exact ⟨by simp, rucSearchGo_ne _ _ n h1⟩
  · split at h
    · rename_i n h2
      by_cases hC : 1000000 ≤ digitsToNat n.toList
      · rw [if_pos hC] at h
        cases h
        exact ⟨by simp, dniWBGo_ne _ _ n h2⟩
      · rw [if_neg hC] at h
        cases h
    · cases h

/-- The validation-consistency invariant of `EmissionData` that the
engine maintains: a validated client implies a present id number, a
stored client name implies a validated client, and the id type and id
number are populated together. -/
def EInv (e : EmissionData) : Prop :=
  (e.client_validated = true → truthyS e.id_number = true) ∧
  (e.client_name ≠ none → e.client_validated = true) ∧
  (truthyS e.id_type = truthyS e.id_number)

lemma EInv_init : EInv EmissionData.init :=
  ⟨fun h => absurd h (fun hc => Bool.noConfusion hc), fun h => absurd rfl h, rfl⟩

lemma EInv_congr {e e' : EmissionData}
    (hit : e'.id_type = e.id_type) (hidn : e'.id_number = e.id_number)
    (hv : e'.client_validated = e.client_validated)
    (hn : e'.client_name = e.client_name) (h : EInv e) : EInv e' := by
  refine ⟨fun hv' => ?_, fun hn' => ?_, ?_⟩
  · rw [hidn]
    exact h.1 (hv ▸ hv')
  · rw [hv]
    exact h.2.1 (hn ▸ hn')
  · rw [hit, hidn]
    exact h.2.2

lemma convStepDoc_fields (e : EmissionData) (c : String) :
    (convStepDoc e c).id_type = e.id_type ∧
    (convStepDoc e c).id_number = e.id_number ∧
    (convStepDoc e c).client_validated = e.client_validated ∧
    (convStepDoc e c).client_name = e.client_name := by
  simp only [convStepDoc]
  repeat' split
  all_goals exact ⟨rfl, rfl, rfl, rfl⟩

lemma convStepItems_fields (e : EmissionData) (c : String) :
    (convStepItems e c).id_type = e.id_type ∧
    (convStepItems e c).id_number = e.id_number ∧
    (convStepItems e c).client_validated = e.client_validated ∧
    (convStepItems e c).client_name = e.client_name := by
  simp only [convStepItems]
  repeat' split
  all_goals exact ⟨rfl, rfl, rfl, rfl⟩

lemma convStepRuc_flags (e : EmissionData) (c : String) :
    (convStepRuc e c).client_validated = e.client_validated ∧
    (convStepRuc e c).client_name = e.client_name := by
  simp only [convStepRuc]
  repeat' split
  all_goals exact ⟨rfl, rfl⟩

lemma convStepDni_flags (e : EmissionData) (c : String) :
    (convStepDni e c).client_validated = e.client_validated ∧
    (convStepDni e c).client_name = e.client_name := by
  simp only [convStepDni]
  repeat' split
  all_goals exact ⟨rfl, rfl⟩

lemma convStepRuc_of_truthy (e : EmissionData) (c : String)
    (h : truthyS e.id_number = true) : convStepRuc e c = e := by
  unfold convStepRuc
  simp [h]

lemma convStepDni_of_truthy (e : EmissionData) (c : String)
    (h : truthyS e.id_number = true) : convStepDni e c = e := by
  unfold convStepDni
  simp [h]

lemma convStep_flags (e : EmissionData) (c : String) :
    (convStep e c).client_validated = e.client_validated ∧
    (convStep e c).client_name = e.client_name := by
  unfold convStep
  constructor
  · rw [(convStepItems_fields _ _).2.2.1, (convStepDni_flags _ _).1,
        (convStepRuc_flags _ _).1, (convStepDoc_fields _ _).2.2.1]
  · rw [(convStepItems_fields _ _).2.2.2, (convStepDni_flags _ _).2,
        (convStepRuc_flags _ _).2, (convStepDoc_fields _ _).2.2.2]

lemma convStep_id_of_truthy (e : EmissionData) (c : String)
    (h : truthyS e.id_number = true) :
    (convStep e c).id_type = e.id_type ∧ (convStep e c).id_number = e.id_number := by
  unfold convStep
  have hdoc := convStepDoc_fields e c
  have h1 : truthyS (convStepDoc e c).id_number = true := by rw [hdoc.2.1]; exact h
  rw [convStepRuc_of_truthy _ _ h1, convStepDni_of_truthy _ _ h1]
  constructor
  · rw [(convStepItems_fields _ _).1, hdoc.1]
  · rw [(convStepItems_fields _ _).2.1, hdoc.2.1]

lemma convStepRuc_EInv (e : EmissionData) (c : String) (h : EInv e) :
    EInv (convStepRuc e c) := by
  unfold convStepRuc
  split
  · cases hr : rucSearchStr c with
    | none => exact h
    | some n =>
      have hn : n ≠ "" := rucSearchGo_ne _ _ n hr
      refine ⟨fun _ => ?_, fun hn' => h.2.1 hn', ?_⟩
      · simp [truthyS, hn]
      · simp [truthyS, hn]
  · exact h

lemma convStepDni_EInv (e : EmissionData) (c : String) (h : EInv e) :
    EInv (convStepDni e c) := by
  unfold convStepDni
  split
  · cases hr : dniWBSearchStr c with
    | none => exact h
    | some n =>
      have hn : n ≠ "" := dniWBGo_ne _ _ n hr
      dsimp only
      split
      · refine ⟨fun _ => ?_, fun hn' => h.2.1 hn', ?_⟩
        · simp [truthyS, hn]
        · simp [truthyS, hn]
      · exact h
  · exact h

lemma convStep_EInv (e : EmissionData) (c : String) (h : EInv e) :
    EInv (convStep e c) := by
  unfold convStep
  have h1 : EInv (convStepDoc e c) := by
    have f := convStepDoc_fields e c
    exact EInv_congr f.1 f.2.1 f.2.2.1 f.2.2.2 h
  have h2 := convStepRuc_EInv (convStepDoc e c) c h1
  have h3 := convStepDni_EInv _ c h2
  have f := convStepItems_fields (convStepDni (convStepRuc (convStepDoc e c) c) c) c
  exact EInv_congr f.1 f.2.1 f.2.2.1 f.2.2.2 h3

lemma foldl_convStep_EInv (ms : List MsgRec) (e : EmissionData) (h : EInv e) :
    EInv (ms.foldl (fun e m => convStep e m.content) e) := by
  induction ms generalizing e with
  | nil => exact h
  | cons m rest ih => exact ih _ (convStep_EInv e m.content h)

lemma foldl_convStep_flags (ms : List MsgRec) (e : EmissionData) :
    (ms.foldl (fun e m => convStep e m.content) e).client_validated =
      e.client_validated ∧
    (ms.foldl (fun e m => convStep e m.content) e).client_name = e.client_name := by
  induction ms generalizing e with
  | nil => exact ⟨rfl, rfl⟩
  | cons m rest ih =>
    rw [List.foldl_cons]
    refine ⟨?_, ?_⟩
    · rw [(ih (convStep e m.content)).1, (convStep_flags e m.content).1]
    · rw [(ih (convStep e m.content)).2, (convStep_flags e m.content).2]

lemma foldl_convStep_id_of_truthy (ms : List MsgRec) (e : EmissionData)
    (h : truthyS e.id_number = true) :
    (ms.foldl (fun e m => convStep e m.content) e).id_number = e.id_number := by
  induction ms generalizing e with
  | nil => rfl
  | cons m rest ih =>
    rw [List.foldl_cons]
    have hstep := convStep_id_of_truthy e m.content h
    rw [ih (convStep e m.content) (by rw [hstep.2]; exact h), hstep.2]

lemma extract_from_conversation_einv (s : SessionSt)
    (h : EInv s.emission_data) :
    EInv (extract_from_conversation s).emission_data := by
  simp only [extract_from_conversation]
  split
  · rename_i hinf
    have hfold := foldl_convStep_EInv (s.messages.drop (s.messages.length - 10))
      s.emission_data h
    exact EInv_congr rfl rfl rfl rfl hfold
  · exact foldl_convStep_EInv _ _ h

lemma extract_from_conversation_valname (s : SessionSt) :
    (extract_from_conversation s).emission_data.client_validated =
      s.emission_data.client_validated ∧
    (extract_from_conversation s).emission_data.client_name =
      s.emission_data.client_name := by
  simp only [extract_from_conversation]
  constructor <;> (split <;> simp [foldl_convStep_flags])

lemma extract_from_conversation_id_of_truthy (s : SessionSt)
    (h : truthyS s.emission_data.id_number = true) :
    (extract_from_conversation s).emission_data.id_number =
      s.emission_data.id_number := by
  simp only [extract_from_conversation]
  split <;> exact foldl_convStep_id_of_truthy _ _ h

lemma extract_all_id (msg : String) :
    truthyS (extract_all msg).id_type = truthyS (extract_all msg).id_number := by
  simp only [extract_all]
  cases hid : extract_id msg with
  | none => rfl
  | some p =>
    obtain ⟨h1, h2⟩ := extract_id_wf hid
    simp [truthyS, h1, h2]

lemma einv_id_empty_clear {e : EmissionData} (h : EInv e)
    (ht : truthyS e.id_type = false) :
    e.client_validated = false ∧ e.client_name = none := by
  have h3 := h.2.2
  rw [ht] at h3
  have hvf : e.client_validated = false := by
    cases hval : e.client_validated
    · rfl
    · have hnum := h.1 hval
      rw [← h3] at hnum
      exact Bool.noConfusion hnum
  have hnf : e.client_name = none := by
    cases hn : e.client_name with
    | none => rfl
    | some v =>
      have hv2 := h.2.1 (by rw [hn]; exact fun hh => Option.noConfusion hh)
      rw [hvf] at hv2
      exact Bool.noConfusion hv2
  exact ⟨hvf, hnf⟩

lemma update_session_einv (e : EmissionData) (x : Extracted)
    (hx : truthyS x.id_type = truthyS x.id_number) (h : EInv e) :
    EInv (update_session e x) := by
  have hv := update_session_validated e x
  have hit := update_session_id_type e x
  have hidn := update_session_id_number e x
  by_cases hc : (truthyS x.id_type && !truthyS e.id_type) = true
  · rw [if_pos hc] at hit hidn
    have ht : truthyS e.id_type = false := by
      simp only [Bool.and_eq_true, Bool.not_eq_true'] at hc
      exact hc.2
    obtain ⟨hvf, hnf⟩ := einv_id_empty_clear h ht
    refine ⟨fun hval => ?_, fun hn => ?_, ?_⟩
    · rw [hv.1, hvf] at hval
      exact Bool.noConfusion hval
    · exact absurd (hv.2.trans hnf) hn
    · rw [hit, hidn]
      exact hx
  · rw [if_neg hc] at hit hidn
    exact EInv_congr hit hidn hv.1 hv.2 h

lemma update_session_id_change_clears (e : EmissionData) (x : Extracted)
    (h : EInv e) (hch : (update_session e x).id_number ≠ e.id_number) :
    (update_session e x).client_validated = false ∧
    (update_session e x).client_name = none := by
  have hv := update_session_validated e x
  have hidn := update_session_id_number e x
  by_cases hc : (truthyS x.id_type && !truthyS e.id_type) = true
  · have ht : truthyS e.id_type = false := by
      simp only [Bool.and_eq_true, Bool.not_eq_true'] at hc
      exact hc.2
    obtain ⟨hvf, hnf⟩ := einv_id_empty_clear h ht
    exact ⟨hv.1.trans hvf, hv.2.trans hnf⟩
  · rw [if_neg hc] at hidn
    exact absurd hidn hch

lemma extract_from_conversation_id_change_clears (s : SessionSt)
    (h : EInv s.emission_data)
    (hch : (extract_from_conversation s).emission_data.id_number ≠
           s.emission_data.id_number) :
    (extract_from_conversation s).emission_data.client_validated = false ∧
    (extract_from_conversation s).emission_data.client_name = none := by
  have hvn := extract_from_conversation_valname s
  by_cases htr : truthyS s.emission_data.id_number = true
  · exact absurd (extract_from_conversation_id_of_truthy s htr) hch
  · have ht0 : truthyS s.emission_data.id_number = false := by
      cases hb : truthyS s.emission_data.id_number
      · rfl
      · exact absurd hb htr
    have ht : truthyS s.emission_data.id_type = false := h.2.2.trans ht0
    obtain ⟨hvf, hnf⟩ := einv_id_empty_clear h ht
    exact ⟨hvn.1.trans hvf, hvn.2.trans hnf⟩

lemma reset_emission_einv (s : SessionSt) : EInv s.reset_emission.emission_data :=
  EInv_init

lemma generate_summary_emission (s : SessionSt) :
    (generate_summary s).2.emission_data = s.emission_data := rfl

lemma requestDataRest_emission (missing : List String) (s : SessionSt) :
    (requestDataRest missing s).2.emission_data = s.emission_data := by
  unfold requestDataRest
  repeat' split
  all_goals rfl

lemma request_data_einv (missing : List String) (s : SessionSt)
    (h : EInv s.emission_data) : EInv (request_data missing s).2.emission_data := by
  simp only [request_data]
  repeat' split
  all_goals first
  | exact h
  | (rw [requestDataRest_emission]; exact EInv_congr rfl rfl rfl rfl h)

lemma validate_and_continue_einv (cR : ApiResult Dict) (s : SessionSt)
    (h : EInv s.emission_data) :
    EInv (validate_and_continue cR s).2.emission_data := by
  simp only [validate_and_continue]
  split
  · exact h
  · rename_i hguard
    have hid : truthyS s.emission_data.id_number = true := by
      simpa using hguard
    split
    · split
      · rw [generate_summary_emission]
        exact ⟨fun _ => hid, fun _ => rfl, h.2.2⟩
      · exact ⟨fun _ => hid, fun _ => rfl, h.2.2⟩
    · exact h

lemma applyNewId_clears (s : SessionSt) (ty n : String) :
    (applyNewId s ty n).emission_data.client_validated = false ∧
    (applyNewId s ty n).emission_data.client_name = none :=
  ⟨rfl, rfl⟩

lemma applyNewId_einv (s : SessionSt) (ty n : String)
    (hty : ty ≠ "") (hn : n ≠ "") : EInv (applyNewId s ty n).emission_data := by
  refine ⟨fun hv => ?_, fun hname => ?_, ?_⟩
  · simp [applyNewId, truthyS, hn]
  · exact absurd rfl hname
  · simp [applyNewId, truthyS, hn, hty]

lemma handle_client_reconfirmation_einv (cR : ApiResult Dict) (message : String)
    (s : SessionSt) (h : EInv s.emission_data) :
    EInv (handle_client_reconfirmation cR message s).2.emission_data := by
  unfold handle_client_reconfirmation
  split
  · exact EInv_init
  · split
    · rename_i ty n heq
      obtain ⟨hty, hn⟩ := extract_document_number_wf heq
      exact validate_and_continue_einv cR _ (applyNewId_einv s ty n hty hn)
    · exact h

lemma postConv_einv (s : SessionSt) (h : EInv s.emission_data) :
    EInv (postConv s).emission_data := by
  unfold postConv
  split
  · exact h
  · exact extract_from_conversation_einv s h

lemma execute_emission_einv (cR : ApiResult Dict) (eR : ApiResult InvoiceResponse)
    (s0 : SessionSt) (h : EInv s0.emission_data) :
    EInv (execute_emission cR eR s0).st.emission_data := by
  have hp : EInv (postConv s0).emission_data := postConv_einv s0 h
  simp only [execute_emission]
  repeat' split
  all_goals first
  | exact request_data_einv _ _ hp
  | exact validate_and_continue_einv cR _ hp
  | exact EInv_init
  | exact hp

/-- Claim C5: every operation that changes `emission_data.id_number` to a
new value also sets `client_validated` to `false` and `client_name` to
empty, and in every reachable session state `client_validated = true`
implies `id_number` is non-empty.  Formalised through the invariant
`EInv` (a validated client has a present id number, a stored client name
implies a validated client, and id type and id number are populated
together): `EInv` holds in the initial state and is preserved by every
operation that touches the emission data — the extractor merge
`update_session` fed by `extract_all`, the conversation-mining step, the
reconfirmation handler, the full `execute_emission` entry point and an
emission reset — so every reachable state satisfies it; and under `EInv`
each operation that changes `id_number` leaves `client_validated =
false` and `client_name = none`, the reconfirmation path clearing them
unconditionally. -/
theorem claim_C5 :
    EInv EmissionData.init ∧
    (∀ (e : EmissionData) (msg : String), EInv e →
       EInv (update_session e (extract_all msg))) ∧
    (∀ (e : EmissionData) (msg : String), EInv e →
       (update_session e (extract_all msg)).id_number ≠ e.id_number →
       (update_session e (extract_all msg)).client_validated = false ∧
       (update_session e (extract_all msg)).client_name = none) ∧
    (∀ s : SessionSt, EInv s.emission_data →
       EInv (extract_from_conversation s).emission_data) ∧
    (∀ s : SessionSt, EInv s.emission_data →
       (extract_from_conversation s).emission_data.id_number ≠
         s.emission_data.id_number →
       (extract_from_conversation s).emission_data.client_validated = false ∧
       (extract_from_conversation s).emission_data.client_name = none) ∧
    (∀ (s : SessionSt) (ty n : String),
       (applyNewId s ty n).emission_data.client_validated = false ∧
       (applyNewId s ty n).emission_data.client_name = none) ∧
    (∀ (cR : ApiResult Dict) (msg : String) (s : SessionSt),
       EInv s.emission_data →
       EInv (handle_client_reconfirmation cR msg s).2.emission_data) ∧
    (∀ (cR : ApiResult Dict) (eR : ApiResult InvoiceResponse) (s : SessionSt),
       EInv s.emission_data →
       EInv (execute_emission cR eR s).st.emission_data) ∧
    (∀ s : SessionSt, EInv s.reset_emission.emission_data) :=
  ⟨EInv_init,
   fun e msg h => update_session_einv e (extract_all msg) (extract_all_id msg) h,
   fun e msg h hch => update_session_id_change_clears e (extract_all msg) h hch,
   extract_from_conversation_einv,
   extract_from_conversation_id_change_clears,
   applyNewId_clears,
   handle_client_reconfirmation_einv,
   execute_emission_einv,
   reset_emission_einv⟩

def c5session : SessionSt :=
  { emission_data := { id_type := some "6", id_number := some "20123456789",
                       client_validated := true, client_name := some "ACME" } }

theorem claim_C5_witness :
    EInv (update_session EmissionData.init (extract_all "boleta para dni 12345678")) ∧
    ((applyNewId c5session "6" "20161541991").emission_data.client_validated = false ∧
     (applyNewId c5session "6" "20161541991").emission_data.client_name = none) :=
  ⟨claim_C5.2.1 EmissionData.init "boleta para dni 12345678" EInv_init,
   claim_C5.2.2.2.2.2.1 c5session "6" "20161541991"⟩

end TinRed
